import Mathlib

/-!
# SDL-Vita: the vitaGL ("Translation") and EGL ("Standards") OpenGL backends

A shallow embedding of `src/video/vita/SDL_vitaopenglvgl.c` and of the part of
`src/video/vita/SDL_vitaopengles.c` that is plain C, followed by theorems about
the embedded functions.

Conventions of the embedding.

* C `int` objects are `Int`; the two file-level flags `vgl_initialized` and
  `vgl_rendering` keep their C type, and a flag is "true" when it is nonzero,
  exactly as `if (flag)` reads it.
* Calls into the native libraries (vitaGL, GL) are recorded, in program order,
  in the `calls` field of the state.
* `SDL_SetError` stores its message in the `error` field.
* The hint store is an input of `VITA_VGL_CreateContext` (`Hints`).
* IEEE-754 binary64 values are represented exactly, as integer multiples of
  `2^-56`, with round-to-nearest-even made explicit.
-/

namespace VitaGL

/-! ## binary64 arithmetic on the grid of multiples of `2^-56` -/

/-- Number of binary digits of `m`, by halving; `fuel` bounds the number of halvings. -/
def bitLengthAux : Nat → Nat → Nat
  | 0, _ => 0
  | fuel + 1, m => if m = 0 then 0 else bitLengthAux fuel (m / 2) + 1

/-- Number of binary digits of `m` (`0` for `m = 0`); `m` halvings always suffice. -/
def bitLength (m : Nat) : Nat := bitLengthAux m m

/-- Round `n` to the nearest multiple of `p`, ties to the even multiple. -/
def roundTiesEven (n : Int) (p : Int) : Int :=
  let q := n / p
  let r := n % p
  if 2 * r < p then q * p
  else if p < 2 * r then (q + 1) * p
  else if q % 2 = 0 then q * p
  else (q + 1) * p

/-- Spacing of the 53-bit significand grid around `n`: `1` when `n` has at most 53 bits. -/
def ulpOf (n : Int) : Int := 2 ^ (bitLength n.natAbs - 53)

/-- Round an integer to 53 significant bits, to nearest, ties to even (the binary64
rounding of a value given as an integer number of grid units). -/
def roundDouble (n : Int) : Int := roundTiesEven n (ulpOf n)

/-- The grid unit: a binary64 value `x` is stored as the integer `x * 2^56`, so `1.0` is
`2^56` units. -/
def DBL_ONE : Int := 2 ^ 56

/-- The conversion `(double)i` of a C `int`. -/
def int_to_double (i : Int) : Int := roundDouble (i * DBL_ONE)

/-- The binary64 product: the exact product (in units of `2^-112`) is rounded to 53 bits
and brought back to the `2^-56` grid. The result is exact IEEE-754 whenever it is zero or
at least `2^-4` in magnitude, which is the case for an integer times `0.1`. -/
def double_mul (a b : Int) : Int := roundDouble (a * b) / DBL_ONE

/-- The binary64 sum. -/
def double_add (a b : Int) : Int := roundDouble (a + b)

/-- The literal `0.1` as a binary64 value: `0x3FB999999999999A`. -/
def dbl_0_1 : Int := 7205759403792794

/-- The literal `2.05` as a binary64 value: `0x4000666666666666`. -/
def dbl_2_05 : Int := 4616189618054758 * 32

/-! ## Constants of the SDL and native headers -/

/-- Modelled from the spec: the profile kind "core" of `GraphicsConfig`; the value is that
of `SDL_GL_CONTEXT_PROFILE_CORE` in SDL's public header, which is not among the sources. -/
def SDL_GL_CONTEXT_PROFILE_CORE : Int := 1

/-- Modelled from the spec: the profile kind "compatibility" of `GraphicsConfig`; the value
is that of `SDL_GL_CONTEXT_PROFILE_COMPATIBILITY` in SDL's public header. -/
def SDL_GL_CONTEXT_PROFILE_COMPATIBILITY : Int := 2

/-- Modelled from the spec: the profile kind "ES" of `GraphicsConfig`; the value is that of
`SDL_GL_CONTEXT_PROFILE_ES` in SDL's public header. -/
def SDL_GL_CONTEXT_PROFILE_ES : Int := 4

/-- Modelled from the spec: the "fullscreen display mode" window flag; the value is that of
`SDL_WINDOW_FULLSCREEN` in SDL's public header. -/
def SDL_WINDOW_FULLSCREEN : Nat := 1

/-- Modelled from the spec: the colour-buffer bit of the GL clear mask (`GL_COLOR_BUFFER_BIT`). -/
def GL_COLOR_BUFFER_BIT : Nat := 0x4000

/-- Modelled from the spec: the depth-buffer bit of the GL clear mask (`GL_DEPTH_BUFFER_BIT`). -/
def GL_DEPTH_BUFFER_BIT : Nat := 0x100

/-- Modelled from the spec: the stencil-buffer bit of the GL clear mask (`GL_STENCIL_BUFFER_BIT`). -/
def GL_STENCIL_BUFFER_BIT : Nat := 0x400

/-- The multisample modes of the native layer (`enum SceGxmMultisampleMode`). -/
inductive SceGxmMultisampleMode where
  | SCE_GXM_MULTISAMPLE_NONE
  | SCE_GXM_MULTISAMPLE_2X
  | SCE_GXM_MULTISAMPLE_4X
  deriving DecidableEq

open SceGxmMultisampleMode

/-! ## Data model -/

/-- One call into the native translation library or GL, with its arguments. The four
`GLclampf` arguments of `glClearColor` are exact values in units of `2^-56`, as in the
binary64 model, so the literal `0.f` is `0`. -/
inductive NativeCall where
  | vglEnd
  | vglGetProcAddress (proc : String)
  | vglInitExtended (vmem : Nat) (width height : Nat) (umem : Nat) (ms : SceGxmMultisampleMode)
  | vglUseVram (use : Bool)
  | vglStartRendering
  | vglStopRendering
  | glFinish
  | glClearColor (red green blue alpha : Int)
  | glClear (mask : Nat)
  | vglWaitVblankStart (interval : Int)
  deriving DecidableEq

open NativeCall

/-- The fields of `_this->gl_config` that the backend reads or writes. -/
structure GLConfig where
  red_size : Int
  green_size : Int
  blue_size : Int
  alpha_size : Int
  depth_size : Int
  stencil_size : Int
  multisamplesamples : Int
  accelerated : Int
  major_version : Int
  minor_version : Int
  profile_mask : Int
  driver_loaded : Int
  deriving DecidableEq

/-- The window: its `flags` word and `driverdata->uses_gl`. -/
structure SDL_Window where
  flags : Nat
  uses_gl : Bool
  deriving DecidableEq

/-- The context handle: `NULL`, or the dummy pointer `&vgl_initialized`. -/
inductive SDL_GLContext where
  | NULL
  | dummy
  deriving DecidableEq

/-- The hint store as `VITA_VGL_CreateContext` sees it. `gpu_pool_size` and `ram_threshold`
are `none` when `SDL_GetHint` returns `NULL` and otherwise hold the value `strtoul` parses
from the hint string (`0` when nothing parses); `use_vram` is the result of
`SDL_GetHintBoolean(SDL_HINT_VITAGL_USE_VRAM, SDL_TRUE)`. -/
structure Hints where
  gpu_pool_size : Option Nat
  ram_threshold : Option Nat
  use_vram : Bool
  deriving DecidableEq

/-- Everything the backend can read or write: the two static flags, the video device's
`gl_config` and `gl_data->swapinterval`, the window, the last error set through
`SDL_SetError` and the native calls issued so far. -/
structure World where
  vgl_initialized : Int
  vgl_rendering : Int
  gl_config : GLConfig
  swapinterval : Int
  window : SDL_Window
  error : Option String
  calls : List NativeCall
  deriving DecidableEq

/-- The state of a fresh process: both statics are `0`, no error set, no native call made. -/
def World.fresh (cfg : GLConfig) (swapinterval : Int) (window : SDL_Window) : World :=
  { vgl_initialized := 0, vgl_rendering := 0, gl_config := cfg, swapinterval := swapinterval,
    window := window, error := none, calls := [] }

/-- The call `SDL_SetError(msg)`. -/
def SDL_SetError (msg : String) (s : World) : World := { s with error := some msg }

/-- Issue one native call. -/
def call (c : NativeCall) (s : World) : World := { s with calls := s.calls ++ [c] }

/-! ## `SDL_vitaopenglvgl.c` -/

/-- The function `VITA_VGL_LoadLibrary`. -/
def VITA_VGL_LoadLibrary (s : World) : Int × World :=
  (0, { s with gl_config := { s.gl_config with driver_loaded := 1 } })

/-- The function `VITA_VGL_UnloadLibrary`. -/
def VITA_VGL_UnloadLibrary (s : World) : World :=
  let s :=
    if s.vgl_initialized ≠ 0 then
      call vglEnd { s with vgl_initialized := 0 }
    else s
  { s with gl_config := { s.gl_config with driver_loaded := 0 } }

/-- The function `VITA_VGL_GetProcAddress`: the lookup is the native library's. -/
def VITA_VGL_GetProcAddress (proc : String) (s : World) : World :=
  call (vglGetProcAddress proc) s

/-- The `double gl_ver` of `VITA_VGL_CreateContext`:
`(double)major_version + (double)minor_version * 0.1`. -/
def gl_ver (cfg : GLConfig) : Int :=
  double_add (int_to_double cfg.major_version)
    (double_mul (int_to_double cfg.minor_version) dbl_0_1)

/-- The `switch` of `VITA_VGL_CreateContext` on `gl_config.multisamplesamples`. -/
def gxm_ms (multisamplesamples : Int) : SceGxmMultisampleMode :=
  if multisamplesamples = 2 then SCE_GXM_MULTISAMPLE_2X
  else if multisamplesamples = 4 ∨ multisamplesamples = 8 ∨ multisamplesamples = 16 then
    SCE_GXM_MULTISAMPLE_4X
  else SCE_GXM_MULTISAMPLE_NONE

/-- The `GLuint` a hint yields: `0`, overwritten by the parsed value when the hint is set,
and replaced by `dflt` when the result is `0`. -/
def hint_or (hint : Option Nat) (dflt : Nat) : Nat :=
  let v : Nat := 0
  let v := match hint with
    | some parsed => parsed % 2 ^ 32
    | none => v
  if v = 0 then dflt else v

/-- The block of `VITA_VGL_CreateContext` guarded by `if (!vgl_initialized)`. -/
def vgl_init_once (hints : Hints) (s : World) : World :=
  if s.vgl_initialized = 0 then
    let ms := gxm_ms s.gl_config.multisamplesamples
    let vmem := hint_or hints.gpu_pool_size 0x800000
    let umem := hint_or hints.ram_threshold 0x1000000
    let s := call (vglInitExtended vmem 960 544 umem ms) s
    { s with vgl_initialized := 1 }
  else s

/-- The function `VITA_VGL_CreateContext`. -/
def VITA_VGL_CreateContext (hints : Hints) (s : World) : SDL_GLContext × World :=
  if dbl_2_05 < gl_ver s.gl_config ∨ s.gl_config.profile_mask = SDL_GL_CONTEXT_PROFILE_ES then
    (SDL_GLContext.NULL, SDL_SetError "unsupported GL version" s)
  else
    let s := vgl_init_once hints s
    let s := if hints.use_vram then call (vglUseVram true) s else s
    let s := { s with gl_config := { s.gl_config with
                red_size := 8, green_size := 8, blue_size := 8, alpha_size := 8,
                depth_size := 32, stencil_size := 8,
                major_version := 2, minor_version := 0,
                profile_mask := SDL_GL_CONTEXT_PROFILE_COMPATIBILITY,
                accelerated := 1 } }
    let s := { s with window := { uses_gl := true,
                                  flags := s.window.flags ||| SDL_WINDOW_FULLSCREEN } }
    (SDL_GLContext.dummy, s)

/-- The clear mask `GL_COLOR_BUFFER_BIT | GL_DEPTH_BUFFER_BIT | GL_STENCIL_BUFFER_BIT`. -/
def CLEAR_ALL : Nat := GL_COLOR_BUFFER_BIT ||| GL_DEPTH_BUFFER_BIT ||| GL_STENCIL_BUFFER_BIT

/-- The function `VITA_VGL_MakeCurrent`. -/
def VITA_VGL_MakeCurrent (s : World) : Int × World :=
  if s.vgl_initialized = 0 then
    (-1, SDL_SetError "vitaGL is not initialized" s)
  else
    let s :=
      if s.vgl_rendering ≠ 0 then
        { call glFinish (call vglStopRendering s) with vgl_rendering := 0 }
      else s
    let s := call (glClearColor 0 0 0 0) s
    let s := call vglStartRendering s
    let s := call (glClear CLEAR_ALL) s
    let s := call vglStopRendering s
    let s := call vglStartRendering s
    let s := call (glClear CLEAR_ALL) s
    let s := call vglStopRendering s
    let s := call glFinish s
    let s := call vglStartRendering s
    (0, { s with vgl_rendering := 1 })

/-- The function `VITA_VGL_SetSwapInterval`. -/
def VITA_VGL_SetSwapInterval (interval : Int) (s : World) : Int × World :=
  if s.vgl_initialized = 0 then
    (-1, SDL_SetError "vitaGL is not initialized" s)
  else
    (0, call (vglWaitVblankStart interval) { s with swapinterval := interval })

/-- The function `VITA_VGL_GetSwapInterval`. -/
def VITA_VGL_GetSwapInterval (s : World) : Int × World :=
  if s.vgl_initialized = 0 then
    (-1, SDL_SetError "vitaGL is not initialized" s)
  else
    (s.swapinterval, s)

/-- The function `VITA_VGL_SwapWindow`. -/
def VITA_VGL_SwapWindow (s : World) : Int × World :=
  if s.vgl_initialized = 0 then
    (-1, SDL_SetError "vitaGL is not initialized" s)
  else
    let s :=
      if s.vgl_rendering ≠ 0 then
        { call vglStopRendering s with vgl_rendering := 0 }
      else s
    let s := call vglStartRendering s
    (0, { s with vgl_rendering := 1 })

/-- The function `VITA_VGL_DeleteContext`. -/
def VITA_VGL_DeleteContext (s : World) : World :=
  if s.vgl_initialized = 0 then
    SDL_SetError "vitaGL is not initialized" s
  else if s.vgl_rendering ≠ 0 then
    { call glFinish (call vglStopRendering s) with vgl_rendering := 0 }
  else s

/-- The function `VITA_VGL_DefaultProfileConfig`: the values stored through `mask`, `major`, `minor`. -/
def VITA_VGL_DefaultProfileConfig (_s : World) : Int × Int × Int :=
  (SDL_GL_CONTEXT_PROFILE_COMPATIBILITY, 2, 0)

/-! ## `SDL_vitaopengles.c` -/

/-- The function `VITA_GLES_DefaultProfileConfig`: the values stored through `mask`, `major`, `minor`. -/
def VITA_GLES_DefaultProfileConfig : Int × Int × Int :=
  (SDL_GL_CONTEXT_PROFILE_ES, 2, 0)

/-! ## Sequences of operations -/

/-- The attributes a caller sets in `gl_config` before asking for a context
(`driver_loaded` is the library's own and is kept). -/
def request (req : GLConfig) (s : World) : World :=
  { s with gl_config := { req with driver_loaded := s.gl_config.driver_loaded } }

/-- One operation of the backend as the windowing subsystem invokes it. `createContext`
carries the configuration requested for this call and the hints in force at the call. -/
inductive Op where
  | loadLibrary
  | unloadLibrary
  | getProcAddress (proc : String)
  | createContext (req : GLConfig) (hints : Hints)
  | makeCurrent
  | setSwapInterval (interval : Int)
  | getSwapInterval
  | swapWindow
  | deleteContext
  | defaultProfileConfig
  deriving DecidableEq

/-- The state after one operation. -/
def step (s : World) : Op → World
  | Op.loadLibrary => (VITA_VGL_LoadLibrary s).2
  | Op.unloadLibrary => VITA_VGL_UnloadLibrary s
  | Op.getProcAddress proc => VITA_VGL_GetProcAddress proc s
  | Op.createContext req hints => (VITA_VGL_CreateContext hints (request req s)).2
  | Op.makeCurrent => (VITA_VGL_MakeCurrent s).2
  | Op.setSwapInterval n => (VITA_VGL_SetSwapInterval n s).2
  | Op.getSwapInterval => (VITA_VGL_GetSwapInterval s).2
  | Op.swapWindow => (VITA_VGL_SwapWindow s).2
  | Op.deleteContext => VITA_VGL_DeleteContext s
  | Op.defaultProfileConfig => s

/-- The state after a sequence of operations, first to last. -/
def run (s : World) (ops : List Op) : World := ops.foldl step s

/-- Whether an operation, run in state `s`, reports success (`DeleteContext`,
`UnloadLibrary`, `GetProcAddress` and `DefaultProfileConfig` report nothing and count as
succeeding when they do not set an error). -/
def succeeds (s : World) : Op → Bool
  | Op.loadLibrary => (VITA_VGL_LoadLibrary s).1 = 0
  | Op.createContext req hints =>
      (VITA_VGL_CreateContext hints (request req s)).1 = SDL_GLContext.dummy
  | Op.makeCurrent => (VITA_VGL_MakeCurrent s).1 = 0
  | Op.setSwapInterval n => (VITA_VGL_SetSwapInterval n s).1 = 0
  | Op.getSwapInterval => s.vgl_initialized ≠ 0
  | Op.swapWindow => (VITA_VGL_SwapWindow s).1 = 0
  | Op.deleteContext => s.vgl_initialized ≠ 0
  | _ => true

/-- Number of calls of the one-shot initializer `vglInitExtended` in a trace. -/
def countInit (calls : List NativeCall) : Nat :=
  calls.countP (fun c => match c with | vglInitExtended _ _ _ _ _ => true | _ => false)

/-- The multisample modes passed to `vglInitExtended`, in call order. -/
def initModes (calls : List NativeCall) : List SceGxmMultisampleMode :=
  calls.filterMap (fun c => match c with | vglInitExtended _ _ _ _ ms => some ms | _ => none)

/-- A C `int` of the target (32 bits). -/
def IsInt32 (i : Int) : Prop := -2147483648 ≤ i ∧ i ≤ 2147483647

instance (i : Int) : Decidable (IsInt32 i) := by unfold IsInt32; infer_instance

/-- A standard request: version 2.0, compatibility profile, no multisampling. -/
def cfg20 : GLConfig :=
  { red_size := 5, green_size := 6, blue_size := 5, alpha_size := 0, depth_size := 16,
    stencil_size := 0, multisamplesamples := 0, accelerated := -1, major_version := 2,
    minor_version := 0, profile_mask := SDL_GL_CONTEXT_PROFILE_COMPATIBILITY,
    driver_loaded := 0 }

/-- A request for version 3.0, otherwise as `cfg20`. -/
def cfg30 : GLConfig := { cfg20 with major_version := 3 }

/-- No hint set; `SDL_GetHintBoolean` then yields its default, `SDL_TRUE`. -/
def noHints : Hints := { gpu_pool_size := none, ram_threshold := none, use_vram := true }

/-- A window with no flag set. -/
def win0 : SDL_Window := { flags := 0, uses_gl := false }

/-- A fresh process with no driver loaded and the request `cfg20` in `gl_config`. -/
def fresh0 : World := World.fresh cfg20 0 win0

/-- The check of `VITA_VGL_CreateContext` lets the request through. -/
def acceptable (cfg : GLConfig) : Bool :=
  !(decide (dbl_2_05 < gl_ver cfg) || decide (cfg.profile_mask = SDL_GL_CONTEXT_PROFILE_ES))

/-- Recognises `CreateContext`, with any request. -/
def Op.isCreate : Op → Bool
  | Op.createContext _ _ => true
  | _ => false

/-- The operations of a context's life between library load and unload: `CreateContext`
with a request the version check lets through, `MakeCurrent`, `SwapWindow`,
`SetSwapInterval`, `GetSwapInterval`, `DeleteContext`. -/
def Op.isContextOp : Op → Bool
  | Op.createContext req _ => acceptable req
  | Op.makeCurrent => true
  | Op.setSwapInterval _ => true
  | Op.getSwapInterval => true
  | Op.swapWindow => true
  | Op.deleteContext => true
  | _ => false

/-- The native calls one operation issues, given the state it starts in, in closed form;
`step_calls` proves that this is what `step` appends to the trace. -/
def emitted (s : World) : Op → List NativeCall
  | Op.loadLibrary => []
  | Op.unloadLibrary => if s.vgl_initialized ≠ 0 then [vglEnd] else []
  | Op.getProcAddress proc => [vglGetProcAddress proc]
  | Op.createContext req hints =>
      if acceptable req = true then
        (if s.vgl_initialized = 0 then
          [vglInitExtended (hint_or hints.gpu_pool_size 0x800000) 960 544
            (hint_or hints.ram_threshold 0x1000000) (gxm_ms req.multisamplesamples)]
        else []) ++ (if hints.use_vram then [vglUseVram true] else [])
      else []
  | Op.makeCurrent =>
      if s.vgl_initialized = 0 then []
      else (if s.vgl_rendering ≠ 0 then [vglStopRendering, glFinish] else []) ++
        [glClearColor 0 0 0 0, vglStartRendering, glClear CLEAR_ALL, vglStopRendering,
          vglStartRendering, glClear CLEAR_ALL, vglStopRendering, glFinish,
          vglStartRendering]
  | Op.setSwapInterval n => if s.vgl_initialized = 0 then [] else [vglWaitVblankStart n]
  | Op.getSwapInterval => []
  | Op.swapWindow =>
      if s.vgl_initialized = 0 then []
      else (if s.vgl_rendering ≠ 0 then [vglStopRendering] else []) ++ [vglStartRendering]
  | Op.deleteContext =>
      if s.vgl_initialized = 0 then []
      else if s.vgl_rendering ≠ 0 then [vglStopRendering, glFinish] else []
  | Op.defaultProfileConfig => []

/-- A value of the target's `unsigned long` (32 bits), the type of what `strtoul` returns. -/
def IsULong32 (v : Nat) : Prop := v < 2 ^ 32

instance (v : Nat) : Decidable (IsULong32 v) := by unfold IsULong32; infer_instance

/-- The hints hold values `strtoul` can return on the target. -/
def Hints.WellTyped (hints : Hints) : Prop :=
  (∀ v, hints.gpu_pool_size = some v → IsULong32 v) ∧
    (∀ v, hints.ram_threshold = some v → IsULong32 v)

/-- The begin-scene (`vglStartRendering`) and end-scene (`vglStopRendering`) calls of a
trace, in call order. -/
def sceneCalls (calls : List NativeCall) : List NativeCall :=
  calls.filter (fun c => decide (c = vglStartRendering ∨ c = vglStopRendering))

/-- The calls of a list strictly alternate between begin-scene and end-scene, the first
being a begin-scene when `beginNext` is true and an end-scene when it is false. -/
def alternatesFrom : Bool → List NativeCall → Bool
  | _, [] => true
  | true, c :: cs => decide (c = vglStartRendering) && alternatesFrom false cs
  | false, c :: cs => decide (c = vglStopRendering) && alternatesFrom true cs

/-- Follow one native call: `some b` says that the scene calls so far alternate and that
a scene is open (`b = true`) or not; `none` says that the alternation was broken. -/
def sceneTrack (st : Option Bool) (c : NativeCall) : Option Bool :=
  match c with
  | vglStartRendering =>
      match st with
      | some false => some true
      | _ => none
  | vglStopRendering =>
      match st with
      | some true => some false
      | _ => none
  | _ => st

/-- Follow a whole trace with `sceneTrack`, from "no scene open". -/
def sceneState (calls : List NativeCall) : Option Bool :=
  calls.foldl sceneTrack (some false)

/-- The scene flag and the trace agree: `vgl_rendering` is 1 or 0, and following the trace
with `sceneTrack` ends in "scene open" exactly when it is 1. -/
def SceneLedger (s : World) (b : Bool) : Prop :=
  s.vgl_rendering = (if b then 1 else 0) ∧ sceneState s.calls = some b

/-! ## Rounding: the error of one binary64 operation -/

theorem bitLengthAux_zero (fuel : Nat) : bitLengthAux fuel 0 = 0 := by
  cases fuel <;> simp [bitLengthAux]

theorem bitLengthAux_spec (fuel : Nat) : ∀ m : Nat, m ≤ fuel → m ≠ 0 →
    ∃ k, bitLengthAux fuel m = k + 1 ∧ 2 ^ k ≤ m ∧ m < 2 ^ (k + 1) := by
  induction fuel with
  | zero => intro m h1 h2; omega
  | succ fuel ih =>
    intro m h1 h2
    simp only [bitLengthAux, if_neg h2]
    by_cases hm : m / 2 = 0
    · refine ⟨0, ?_, ?_, ?_⟩
      · rw [hm, bitLengthAux_zero]
      · simp; omega
      · simp; omega
    · obtain ⟨k, hk, hlo, hhi⟩ := ih (m / 2) (by omega) hm
      refine ⟨k + 1, by rw [hk], ?_, ?_⟩
      · rw [pow_succ]; omega
      · rw [pow_succ]; omega

theorem bitLength_spec (m : Nat) (h : m ≠ 0) :
    ∃ k, bitLength m = k + 1 ∧ 2 ^ k ≤ m ∧ m < 2 ^ (k + 1) :=
  bitLengthAux_spec m m (le_refl m) h

theorem roundTiesEven_err (n p : Int) (hp : 0 < p) :
    -p ≤ 2 * (roundTiesEven n p - n) ∧ 2 * (roundTiesEven n p - n) ≤ p := by
  have h1 := Int.emod_add_ediv n p
  have h2 := Int.emod_nonneg n (ne_of_gt hp)
  have h3 := Int.emod_lt_of_pos n hp
  have e1 : n / p * p = p * (n / p) := mul_comm _ _
  have e2 : (n / p + 1) * p = p * (n / p) + p := by ring
  unfold roundTiesEven
  simp only
  rw [e1, e2]
  split_ifs <;> constructor <;> omega

theorem roundTiesEven_one (n : Int) : roundTiesEven n 1 = n := by
  unfold roundTiesEven
  simp

theorem roundDouble_err (n B : Int) (h1 : -B ≤ n) (h2 : n ≤ B) :
    -B ≤ 2 ^ 53 * (roundDouble n - n) ∧ 2 ^ 53 * (roundDouble n - n) ≤ B := by
  unfold roundDouble ulpOf
  by_cases h0 : n.natAbs = 0
  · have : bitLength 0 = 0 := rfl
    rw [h0, this]
    simp [roundTiesEven_one]
    omega
  · obtain ⟨k, hk, hlo, _⟩ := bitLength_spec n.natAbs h0
    rw [hk]
    by_cases hk53 : k + 1 ≤ 53
    · have : k + 1 - 53 = 0 := by omega
      rw [this]
      simp [roundTiesEven_one]
      omega
    · obtain ⟨j, rfl⟩ : ∃ j, k = 52 + (j + 1) := ⟨k - 53, by omega⟩
      have e : 52 + (j + 1) + 1 - 53 = j + 1 := by omega
      rw [e]
      have hpos : (0 : Int) < 2 ^ (j + 1) := by positivity
      obtain ⟨r1, r2⟩ := roundTiesEven_err n (2 ^ (j + 1)) hpos
      have hlo' : ((2 ^ (52 + (j + 1)) : Nat) : Int) ≤ (n.natAbs : Int) := by exact_mod_cast hlo
      rw [pow_add] at hlo'
      push_cast at hlo'
      generalize (2 : Int) ^ (j + 1) = P at *
      generalize roundTiesEven n P = R at *
      have e53 : (2 : Int) ^ 53 = 9007199254740992 := by norm_num
      rw [e53]
      rcases abs_cases n with ⟨ha, _⟩ | ⟨ha, _⟩ <;> rw [ha] at hlo' <;> constructor <;> omega

theorem gl_ver_gt_iff (cfg : GLConfig) (hM : IsInt32 cfg.major_version)
    (hm : IsInt32 cfg.minor_version) :
    dbl_2_05 < gl_ver cfg ↔ 21 ≤ 10 * cfg.major_version + cfg.minor_version := by
  obtain ⟨hM1, hM2⟩ := hM
  obtain ⟨hm1, hm2⟩ := hm
  unfold gl_ver double_add double_mul int_to_double
  generalize cfg.major_version = M at *
  generalize cfg.minor_version = m at *
  have e53 : (2 : Int) ^ 53 = 9007199254740992 := by norm_num
  have e56 : DBL_ONE = 72057594037927936 := by norm_num [DBL_ONE]
  rw [e56]
  obtain ⟨a1, a2⟩ := roundDouble_err (M * 72057594037927936) (2147483648 * 72057594037927936)
    (by omega) (by omega)
  obtain ⟨b1, b2⟩ := roundDouble_err (m * 72057594037927936) (2147483648 * 72057594037927936)
    (by omega) (by omega)
  rw [e53] at a1 a2 b1 b2
  generalize roundDouble (M * 72057594037927936) = a at *
  generalize roundDouble (m * 72057594037927936) = b at *
  have c01 : dbl_0_1 = 7205759403792794 := rfl
  have c205 : dbl_2_05 = 147718067777752256 := by norm_num [dbl_2_05]
  rw [c01, c205]
  obtain ⟨r1, r2⟩ := roundDouble_err (b * 7205759403792794)
    (4294967296 * 72057594037927936 * 7205759403792794) (by omega) (by omega)
  rw [e53] at r1 r2
  generalize roundDouble (b * 7205759403792794) = r at *
  obtain ⟨s1, s2⟩ := roundDouble_err (a + r / 72057594037927936)
    (4294967296 * 72057594037927936) (by omega) (by omega)
  rw [e53] at s1 s2
  generalize roundDouble (a + r / 72057594037927936) = s at *
  constructor <;> intro h <;> omega

/-! ## What each operation does to each part of the state -/

theorem createContext_refused (hints : Hints) (s : World)
    (h : dbl_2_05 < gl_ver s.gl_config ∨
      s.gl_config.profile_mask = SDL_GL_CONTEXT_PROFILE_ES) :
    VITA_VGL_CreateContext hints s =
      (SDL_GLContext.NULL, SDL_SetError "unsupported GL version" s) := by
  simp only [VITA_VGL_CreateContext, if_pos h]

theorem createContext_dummy_iff (hints : Hints) (s : World) :
    (VITA_VGL_CreateContext hints s).1 = SDL_GLContext.dummy ↔
      ¬(dbl_2_05 < gl_ver s.gl_config ∨
        s.gl_config.profile_mask = SDL_GL_CONTEXT_PROFILE_ES) := by
  unfold VITA_VGL_CreateContext
  split_ifs with h <;> simp [h]

theorem createContext_dummy_iff_acceptable (hints : Hints) (s : World) :
    (VITA_VGL_CreateContext hints s).1 = SDL_GLContext.dummy ↔
      acceptable s.gl_config = true := by
  rw [createContext_dummy_iff]
  simp [acceptable]

theorem vgl_init_once_initialized (hints : Hints) (s : World) :
    (vgl_init_once hints s).vgl_initialized = if s.vgl_initialized = 0 then 1 else s.vgl_initialized := by
  unfold vgl_init_once
  split_ifs <;> rfl

theorem vgl_init_once_calls (hints : Hints) (s : World) :
    (vgl_init_once hints s).calls =
      if s.vgl_initialized = 0 then
        s.calls ++ [vglInitExtended (hint_or hints.gpu_pool_size 0x800000) 960 544
          (hint_or hints.ram_threshold 0x1000000) (gxm_ms s.gl_config.multisamplesamples)]
      else s.calls := by
  unfold vgl_init_once
  split_ifs <;> rfl

theorem vgl_init_once_rendering (hints : Hints) (s : World) :
    (vgl_init_once hints s).vgl_rendering = s.vgl_rendering := by
  unfold vgl_init_once
  split_ifs <;> rfl

theorem createContext_granted_initialized (hints : Hints) (s : World)
    (h : ¬(dbl_2_05 < gl_ver s.gl_config ∨
      s.gl_config.profile_mask = SDL_GL_CONTEXT_PROFILE_ES)) :
    (VITA_VGL_CreateContext hints s).2.vgl_initialized =
      if s.vgl_initialized = 0 then 1 else s.vgl_initialized := by
  simp only [VITA_VGL_CreateContext, if_neg h]
  rw [← vgl_init_once_initialized hints s]
  split_ifs <;> rfl

theorem createContext_granted_rendering (hints : Hints) (s : World)
    (h : ¬(dbl_2_05 < gl_ver s.gl_config ∨
      s.gl_config.profile_mask = SDL_GL_CONTEXT_PROFILE_ES)) :
    (VITA_VGL_CreateContext hints s).2.vgl_rendering = s.vgl_rendering := by
  simp only [VITA_VGL_CreateContext, if_neg h]
  rw [← vgl_init_once_rendering hints s]
  split_ifs <;> rfl

theorem createContext_granted_calls (hints : Hints) (s : World)
    (h : ¬(dbl_2_05 < gl_ver s.gl_config ∨
      s.gl_config.profile_mask = SDL_GL_CONTEXT_PROFILE_ES)) :
    (VITA_VGL_CreateContext hints s).2.calls =
      (vgl_init_once hints s).calls ++ (if hints.use_vram then [vglUseVram true] else []) := by
  simp only [VITA_VGL_CreateContext, if_neg h]
  split_ifs <;> simp [call]

theorem makeCurrent_uninit (s : World) (h : s.vgl_initialized = 0) :
    VITA_VGL_MakeCurrent s = (-1, SDL_SetError "vitaGL is not initialized" s) := by
  simp only [VITA_VGL_MakeCurrent, if_pos h]

theorem makeCurrent_result (s : World) (h : s.vgl_initialized ≠ 0) :
    (VITA_VGL_MakeCurrent s).1 = 0 := by
  simp only [VITA_VGL_MakeCurrent, if_neg h]

theorem makeCurrent_initialized (s : World) :
    (VITA_VGL_MakeCurrent s).2.vgl_initialized = s.vgl_initialized := by
  unfold VITA_VGL_MakeCurrent
  split_ifs <;> simp [SDL_SetError, call]

theorem makeCurrent_rendering (s : World) (h : s.vgl_initialized ≠ 0) :
    (VITA_VGL_MakeCurrent s).2.vgl_rendering = 1 := by
  simp only [VITA_VGL_MakeCurrent, if_neg h]

theorem makeCurrent_calls (s : World) (h : s.vgl_initialized ≠ 0) :
    (VITA_VGL_MakeCurrent s).2.calls =
      s.calls ++ (if s.vgl_rendering ≠ 0 then [vglStopRendering, glFinish] else []) ++
        [glClearColor 0 0 0 0, vglStartRendering, glClear CLEAR_ALL, vglStopRendering,
          vglStartRendering, glClear CLEAR_ALL, vglStopRendering, glFinish,
          vglStartRendering] := by
  simp only [VITA_VGL_MakeCurrent, if_neg h]
  split_ifs <;> simp [call]

theorem swapWindow_uninit (s : World) (h : s.vgl_initialized = 0) :
    VITA_VGL_SwapWindow s = (-1, SDL_SetError "vitaGL is not initialized" s) := by
  simp only [VITA_VGL_SwapWindow, if_pos h]

theorem swapWindow_result (s : World) (h : s.vgl_initialized ≠ 0) :
    (VITA_VGL_SwapWindow s).1 = 0 := by
  simp only [VITA_VGL_SwapWindow, if_neg h]

theorem swapWindow_initialized (s : World) :
    (VITA_VGL_SwapWindow s).2.vgl_initialized = s.vgl_initialized := by
  unfold VITA_VGL_SwapWindow
  split_ifs <;> simp [SDL_SetError, call]

theorem swapWindow_rendering (s : World) (h : s.vgl_initialized ≠ 0) :
    (VITA_VGL_SwapWindow s).2.vgl_rendering = 1 := by
  simp only [VITA_VGL_SwapWindow, if_neg h]

theorem swapWindow_calls (s : World) (h : s.vgl_initialized ≠ 0) :
    (VITA_VGL_SwapWindow s).2.calls =
      s.calls ++ (if s.vgl_rendering ≠ 0 then [vglStopRendering] else []) ++
        [vglStartRendering] := by
  simp only [VITA_VGL_SwapWindow, if_neg h]
  split_ifs <;> simp [call]

theorem setSwapInterval_uninit (n : Int) (s : World) (h : s.vgl_initialized = 0) :
    VITA_VGL_SetSwapInterval n s = (-1, SDL_SetError "vitaGL is not initialized" s) := by
  simp only [VITA_VGL_SetSwapInterval, if_pos h]

theorem setSwapInterval_init (n : Int) (s : World) (h : s.vgl_initialized ≠ 0) :
    VITA_VGL_SetSwapInterval n s =
      (0, call (vglWaitVblankStart n) { s with swapinterval := n }) := by
  simp only [VITA_VGL_SetSwapInterval, if_neg h]

theorem getSwapInterval_uninit (s : World) (h : s.vgl_initialized = 0) :
    VITA_VGL_GetSwapInterval s = (-1, SDL_SetError "vitaGL is not initialized" s) := by
  simp only [VITA_VGL_GetSwapInterval, if_pos h]

theorem getSwapInterval_init (s : World) (h : s.vgl_initialized ≠ 0) :
    VITA_VGL_GetSwapInterval s = (s.swapinterval, s) := by
  simp only [VITA_VGL_GetSwapInterval, if_neg h]

theorem deleteContext_uninit (s : World) (h : s.vgl_initialized = 0) :
    VITA_VGL_DeleteContext s = SDL_SetError "vitaGL is not initialized" s := by
  simp only [VITA_VGL_DeleteContext, if_pos h]

theorem deleteContext_initialized (s : World) :
    (VITA_VGL_DeleteContext s).vgl_initialized = s.vgl_initialized := by
  unfold VITA_VGL_DeleteContext
  split_ifs <;> simp [SDL_SetError, call]

theorem deleteContext_rendering (s : World) (h : s.vgl_initialized ≠ 0) :
    (VITA_VGL_DeleteContext s).vgl_rendering = 0 := by
  simp only [VITA_VGL_DeleteContext, if_neg h]
  split_ifs with hr
  · rfl
  · exact not_not.mp hr

theorem deleteContext_calls (s : World) (h : s.vgl_initialized ≠ 0) :
    (VITA_VGL_DeleteContext s).calls =
      s.calls ++ (if s.vgl_rendering ≠ 0 then [vglStopRendering, glFinish] else []) := by
  simp only [VITA_VGL_DeleteContext, if_neg h]
  split_ifs <;> simp [call]

theorem unloadLibrary_initialized (s : World) :
    (VITA_VGL_UnloadLibrary s).vgl_initialized = 0 := by
  unfold VITA_VGL_UnloadLibrary
  split_ifs with h
  · rfl
  · exact not_not.mp h

theorem unloadLibrary_rendering (s : World) :
    (VITA_VGL_UnloadLibrary s).vgl_rendering = s.vgl_rendering := by
  unfold VITA_VGL_UnloadLibrary
  split_ifs <;> rfl

theorem unloadLibrary_calls (s : World) :
    (VITA_VGL_UnloadLibrary s).calls =
      s.calls ++ (if s.vgl_initialized ≠ 0 then [vglEnd] else []) := by
  unfold VITA_VGL_UnloadLibrary
  split_ifs <;> simp [call]

theorem countInit_append (l₁ l₂ : List NativeCall) :
    countInit (l₁ ++ l₂) = countInit l₁ + countInit l₂ := by
  simp [countInit]

theorem run_append (s : World) (ops₁ ops₂ : List Op) :
    run s (ops₁ ++ ops₂) = run (run s ops₁) ops₂ := by
  simp [run]

theorem run_cons (s : World) (op : Op) (ops : List Op) :
    run s (op :: ops) = run (step s op) ops := rfl

theorem run_nil (s : World) : run s [] = s := rfl

theorem acceptable_request (req : GLConfig) (s : World) :
    acceptable (request req s).gl_config = acceptable req := by
  simp [acceptable, gl_ver, request]

theorem request_initialized (req : GLConfig) (s : World) :
    (request req s).vgl_initialized = s.vgl_initialized := rfl

theorem request_rendering (req : GLConfig) (s : World) :
    (request req s).vgl_rendering = s.vgl_rendering := rfl

theorem request_calls (req : GLConfig) (s : World) : (request req s).calls = s.calls := rfl

theorem createContext_initialized (hints : Hints) (s : World) :
    (VITA_VGL_CreateContext hints s).2.vgl_initialized =
      if acceptable s.gl_config = true ∧ s.vgl_initialized = 0 then 1
      else s.vgl_initialized := by
  by_cases h : dbl_2_05 < gl_ver s.gl_config ∨
      s.gl_config.profile_mask = SDL_GL_CONTEXT_PROFILE_ES
  · have ha : ¬ acceptable s.gl_config = true := by
      rw [← createContext_dummy_iff_acceptable hints s, createContext_dummy_iff]
      exact not_not.mpr h
    rw [createContext_refused hints s h]
    simp [ha, SDL_SetError]
  · have ha : acceptable s.gl_config = true := by
      rw [← createContext_dummy_iff_acceptable hints s, createContext_dummy_iff]
      exact h
    rw [createContext_granted_initialized hints s h]
    simp [ha]

theorem createContext_rendering (hints : Hints) (s : World) :
    (VITA_VGL_CreateContext hints s).2.vgl_rendering = s.vgl_rendering := by
  by_cases h : dbl_2_05 < gl_ver s.gl_config ∨
      s.gl_config.profile_mask = SDL_GL_CONTEXT_PROFILE_ES
  · rw [createContext_refused hints s h]
    rfl
  · exact createContext_granted_rendering hints s h

theorem createContext_calls (hints : Hints) (s : World) :
    (VITA_VGL_CreateContext hints s).2.calls =
      s.calls ++
        (if acceptable s.gl_config = true then
          (if s.vgl_initialized = 0 then
            [vglInitExtended (hint_or hints.gpu_pool_size 0x800000) 960 544
              (hint_or hints.ram_threshold 0x1000000) (gxm_ms s.gl_config.multisamplesamples)]
          else []) ++ (if hints.use_vram then [vglUseVram true] else [])
        else []) := by
  by_cases h : dbl_2_05 < gl_ver s.gl_config ∨
      s.gl_config.profile_mask = SDL_GL_CONTEXT_PROFILE_ES
  · have ha : ¬ acceptable s.gl_config = true := by
      rw [← createContext_dummy_iff_acceptable hints s, createContext_dummy_iff]
      exact not_not.mpr h
    rw [createContext_refused hints s h]
    simp [ha, SDL_SetError]
  · have ha : acceptable s.gl_config = true := by
      rw [← createContext_dummy_iff_acceptable hints s, createContext_dummy_iff]
      exact h
    rw [createContext_granted_calls hints s h, vgl_init_once_calls]
    simp only [ha, if_true]
    split_ifs <;> simp

/-- The flag `vgl_initialized` after one operation. -/
theorem step_initialized (s : World) (op : Op) :
    (step s op).vgl_initialized =
      match op with
      | Op.unloadLibrary => 0
      | Op.createContext req _ =>
          if acceptable req = true ∧ s.vgl_initialized = 0 then 1 else s.vgl_initialized
      | _ => s.vgl_initialized := by
  cases op with
  | loadLibrary => rfl
  | unloadLibrary => exact unloadLibrary_initialized s
  | getProcAddress proc => rfl
  | createContext req hints =>
    simp only [step]
    rw [createContext_initialized, acceptable_request, request_initialized]
  | makeCurrent => exact makeCurrent_initialized s
  | setSwapInterval n =>
    simp only [step, VITA_VGL_SetSwapInterval]
    split_ifs <;> rfl
  | getSwapInterval =>
    simp only [step, VITA_VGL_GetSwapInterval]
    split_ifs <;> rfl
  | swapWindow => exact swapWindow_initialized s
  | deleteContext => exact deleteContext_initialized s
  | defaultProfileConfig => rfl

/-- One operation appends exactly `emitted s op` to the trace of native calls. -/
theorem step_calls (s : World) (op : Op) : (step s op).calls = s.calls ++ emitted s op := by
  cases op with
  | loadLibrary => simp [step, emitted, VITA_VGL_LoadLibrary]
  | unloadLibrary => exact unloadLibrary_calls s
  | getProcAddress proc => simp [step, emitted, VITA_VGL_GetProcAddress, call]
  | createContext req hints =>
    simp only [step, emitted]
    rw [createContext_calls, acceptable_request, request_initialized, request_calls]
    rfl
  | makeCurrent =>
    simp only [step, emitted]
    by_cases h : s.vgl_initialized = 0
    · rw [makeCurrent_uninit s h]
      simp [h, SDL_SetError]
    · rw [makeCurrent_calls s h]
      simp [h]
  | setSwapInterval n =>
    simp only [step, emitted, VITA_VGL_SetSwapInterval]
    split_ifs <;> simp [SDL_SetError, call]
  | getSwapInterval =>
    simp only [step, emitted, VITA_VGL_GetSwapInterval]
    split_ifs <;> simp [SDL_SetError]
  | swapWindow =>
    simp only [step, emitted]
    by_cases h : s.vgl_initialized = 0
    · rw [swapWindow_uninit s h]
      simp [h, SDL_SetError]
    · rw [swapWindow_calls s h]
      simp [h]
  | deleteContext =>
    simp only [step, emitted]
    by_cases h : s.vgl_initialized = 0
    · rw [deleteContext_uninit s h]
      simp [h, SDL_SetError]
    · rw [deleteContext_calls s h]
      simp [h]
  | defaultProfileConfig => simp [step, emitted]

/-- Runs of the initializer in what one operation emits: one, for a granted
`CreateContext` in an uninitialized state, and none otherwise. -/
theorem countInit_emitted (s : World) (op : Op) :
    countInit (emitted s op) =
      match op with
      | Op.createContext req _ =>
          if acceptable req = true ∧ s.vgl_initialized = 0 then 1 else 0
      | _ => 0 := by
  cases op with
  | createContext req hints =>
    simp only [emitted]
    by_cases ha : acceptable req = true <;> by_cases hi : s.vgl_initialized = 0 <;>
      by_cases hv : hints.use_vram = true <;> simp [ha, hi, hv, countInit]
  | unloadLibrary => simp only [emitted]; split_ifs <;> simp [countInit]
  | makeCurrent => simp only [emitted]; split_ifs <;> simp [countInit]
  | setSwapInterval n => simp only [emitted]; split_ifs <;> simp [countInit]
  | swapWindow => simp only [emitted]; split_ifs <;> simp [countInit]
  | deleteContext => simp only [emitted]; split_ifs <;> simp [countInit]
  | _ => simp [emitted, countInit]

/-- Over the rationals, `major + minor * 0.1 > 2.05` says `10 * major + minor ≥ 21`. -/
theorem version_above_iff (M m : Int) :
    (2.05 : ℚ) < (M : ℚ) + (m : ℚ) * 0.1 ↔ 21 ≤ 10 * M + m := by
  constructor
  · intro h
    have h2 : ((41 : Int) : ℚ) < ((20 * M + 2 * m : Int) : ℚ) := by
      push_cast
      linarith
    have h3 : (41 : Int) < 20 * M + 2 * m := by exact_mod_cast h2
    omega
  · intro h
    have h2 : ((42 : Int) : ℚ) ≤ ((20 * M + 2 * m : Int) : ℚ) := by
      exact_mod_cast (by omega : (42 : Int) ≤ 20 * M + 2 * m)
    push_cast at h2
    linarith

/-- The binary64 test `gl_ver > 2.05` of the code agrees, on C `int` versions, with the
comparison of the exact value `major + minor * 0.1` with `2.05`. -/
theorem gl_ver_exact (cfg : GLConfig) (hM : IsInt32 cfg.major_version)
    (hm : IsInt32 cfg.minor_version) :
    dbl_2_05 < gl_ver cfg ↔
      (2.05 : ℚ) < (cfg.major_version : ℚ) + (cfg.minor_version : ℚ) * 0.1 := by
  rw [gl_ver_gt_iff cfg hM hm, version_above_iff]

/-- The literal `0.1` is correctly rounded: `dbl_0_1` has 53 significant bits and lies
within half a unit in the last place of `1/10`. -/
theorem dbl_0_1_nearest :
    2 ^ 52 ≤ dbl_0_1 ∧ dbl_0_1 < 2 ^ 53 ∧ 2 * |10 * dbl_0_1 - DBL_ONE| ≤ 10 := by
  decide

/-- The literal `2.05` is correctly rounded: `dbl_2_05` is a 53-bit multiple of `2^5` and
lies within half a unit in the last place (`2^5` grid units) of `41/20`. -/
theorem dbl_2_05_nearest :
    dbl_2_05 % 32 = 0 ∧ 2 ^ 52 ≤ dbl_2_05 / 32 ∧ dbl_2_05 / 32 < 2 ^ 53 ∧
      2 * |20 * dbl_2_05 - 41 * DBL_ONE| ≤ 20 * 32 := by
  decide

/-! ## C1 -/

/-- C1: whenever `major + minor * 0.1 > 2.05` (as exact numbers, the versions being C
`int`s) or the requested profile is ES, `VITA_VGL_CreateContext` returns `NULL`, sets the
error "unsupported GL version" and leaves `vgl_initialized` as it was, in every state and
under every setting of the hints. -/
theorem C1_createContext_rejects_unsupported (hints : Hints) (s : World)
    (hM : IsInt32 s.gl_config.major_version) (hm : IsInt32 s.gl_config.minor_version)
    (h : (2.05 : ℚ) < (s.gl_config.major_version : ℚ) + (s.gl_config.minor_version : ℚ) * 0.1 ∨
      s.gl_config.profile_mask = SDL_GL_CONTEXT_PROFILE_ES) :
    (VITA_VGL_CreateContext hints s).1 = SDL_GLContext.NULL ∧
      (VITA_VGL_CreateContext hints s).2.error = some "unsupported GL version" ∧
      (VITA_VGL_CreateContext hints s).2.vgl_initialized = s.vgl_initialized := by
  rw [← gl_ver_exact s.gl_config hM hm] at h
  simp [VITA_VGL_CreateContext, h, SDL_SetError]

/-- C1 at the scenario of the spec: a fresh process asking for version 3.0. -/
theorem C1_witness_fresh_3_0 :
    (IsInt32 3 ∧ IsInt32 0 ∧ (2.05 : ℚ) < ((3 : Int) : ℚ) + ((0 : Int) : ℚ) * 0.1) ∧
      (World.fresh cfg30 0 win0).vgl_initialized = 0 ∧
      (VITA_VGL_CreateContext noHints (World.fresh cfg30 0 win0)).1 = SDL_GLContext.NULL ∧
      (VITA_VGL_CreateContext noHints (World.fresh cfg30 0 win0)).2.error =
        some "unsupported GL version" ∧
      (VITA_VGL_CreateContext noHints (World.fresh cfg30 0 win0)).2.vgl_initialized = 0 :=
  ⟨⟨by decide, by decide, by norm_num⟩, rfl,
    C1_createContext_rejects_unsupported noHints (World.fresh cfg30 0 win0)
      (by decide) (by decide) (Or.inl (by norm_num [World.fresh, cfg30, cfg20]))⟩

/-! ## C2 -/

theorem countInit_step (s : World) (op : Op) :
    countInit (step s op).calls =
      countInit s.calls +
        match op with
        | Op.createContext req _ =>
            if acceptable req = true ∧ s.vgl_initialized = 0 then 1 else 0
        | _ => 0 := by
  rw [step_calls, countInit_append, countInit_emitted]

theorem step_contextOp_initialized (s : World) (op : Op) (h : s.vgl_initialized = 1)
    (hop : op.isContextOp = true) :
    (step s op).vgl_initialized = 1 ∧ countInit (step s op).calls = countInit s.calls := by
  rw [step_initialized, countInit_step]
  cases op <;> simp_all [Op.isContextOp]

theorem step_contextOp_uninitialized (s : World) (op : Op) (h : s.vgl_initialized = 0)
    (hop : op.isContextOp = true) (hc : op.isCreate = false) :
    (step s op).vgl_initialized = 0 ∧ countInit (step s op).calls = countInit s.calls := by
  rw [step_initialized, countInit_step]
  cases op <;> simp_all [Op.isContextOp, Op.isCreate]

theorem run_contextOps_initialized (ops : List Op) :
    ∀ s : World, s.vgl_initialized = 1 → (∀ op ∈ ops, op.isContextOp = true) →
      (run s ops).vgl_initialized = 1 ∧ countInit (run s ops).calls = countInit s.calls := by
  induction ops with
  | nil => intro s h _; exact ⟨h, rfl⟩
  | cons op ops ih =>
    intro s h hops
    obtain ⟨h1, h2⟩ := step_contextOp_initialized s op h (hops op (List.mem_cons_self _ _))
    obtain ⟨h3, h4⟩ := ih (step s op) h1 (fun o ho => hops o (List.mem_cons_of_mem _ ho))
    rw [run_cons]
    exact ⟨h3, h4.trans h2⟩

theorem run_contextOps_uninitialized (ops : List Op) :
    ∀ s : World, s.vgl_initialized = 0 →
      (∀ op ∈ ops, op.isContextOp = true ∧ op.isCreate = false) →
      (run s ops).vgl_initialized = 0 ∧ countInit (run s ops).calls = countInit s.calls := by
  induction ops with
  | nil => intro s h _; exact ⟨h, rfl⟩
  | cons op ops ih =>
    intro s h hops
    obtain ⟨hc1, hc2⟩ := hops op (List.mem_cons_self _ _)
    obtain ⟨h1, h2⟩ := step_contextOp_uninitialized s op h hc1 hc2
    obtain ⟨h3, h4⟩ := ih (step s op) h1 (fun o ho => hops o (List.mem_cons_of_mem _ ho))
    rw [run_cons]
    exact ⟨h3, h4.trans h2⟩

/-- C3: take any sequence of operations from a fresh process that is made of
`CreateContext` calls with acceptable requests, `MakeCurrent`, `SwapWindow`,
`SetSwapInterval`, `GetSwapInterval` and `DeleteContext`, and that holds at least one
`CreateContext` (so in particular any with N > 1 of them): `pre` is what comes before the
first `CreateContext`, `post` what comes after it. Before that call `vglInitExtended` has
not run and `vgl_initialized` is 0; that call succeeds and runs `vglInitExtended` once and
sets `vgl_initialized`; after every later call of the sequence (`DeleteContext` and
further `CreateContext` included) `vgl_initialized` is still 1 and `vglInitExtended` has
still run exactly once. -/
theorem C3_initializer_runs_once (cfg : GLConfig) (swapinterval : Int) (window : SDL_Window)
    (pre post : List Op) (req : GLConfig) (hints : Hints)
    (hpre : ∀ op ∈ pre, op.isContextOp = true ∧ op.isCreate = false)
    (hreq : acceptable req = true)
    (hpost : ∀ op ∈ post, op.isContextOp = true) :
    ((run (World.fresh cfg swapinterval window) pre).vgl_initialized = 0 ∧
      countInit (run (World.fresh cfg swapinterval window) pre).calls = 0) ∧
    (succeeds (run (World.fresh cfg swapinterval window) pre) (Op.createContext req hints)
        = true ∧
      (run (World.fresh cfg swapinterval window)
        (pre ++ [Op.createContext req hints])).vgl_initialized = 1 ∧
      countInit (run (World.fresh cfg swapinterval window)
        (pre ++ [Op.createContext req hints])).calls = 1) ∧
    (∀ k : Nat,
      (run (World.fresh cfg swapinterval window)
        (pre ++ Op.createContext req hints :: post.take k)).vgl_initialized = 1 ∧
      countInit (run (World.fresh cfg swapinterval window)
        (pre ++ Op.createContext req hints :: post.take k)).calls = 1) ∧
    (run (World.fresh cfg swapinterval window)
        (pre ++ Op.createContext req hints :: post)).vgl_initialized = 1 ∧
    countInit (run (World.fresh cfg swapinterval window)
        (pre ++ Op.createContext req hints :: post)).calls = 1 := by
  obtain ⟨p1, p2⟩ := run_contextOps_uninitialized pre (World.fresh cfg swapinterval window)
    rfl hpre
  have p2' : countInit (run (World.fresh cfg swapinterval window) pre).calls = 0 := by
    rw [p2]; rfl
  simp only [run_append, run_cons, run_nil]
  generalize run (World.fresh cfg swapinterval window) pre = s1 at *
  have hsucc : succeeds s1 (Op.createContext req hints) = true := by
    simp only [succeeds, decide_eq_true_eq]
    rw [createContext_dummy_iff_acceptable, acceptable_request]
    exact hreq
  have c1 : (step s1 (Op.createContext req hints)).vgl_initialized = 1 := by
    rw [step_initialized]
    simp [hreq, p1]
  have c2 : countInit (step s1 (Op.createContext req hints)).calls = 1 := by
    rw [countInit_step, p2']
    simp [hreq, p1]
  have later : ∀ l : List Op, (∀ op ∈ l, op.isContextOp = true) →
      (run (step s1 (Op.createContext req hints)) l).vgl_initialized = 1 ∧
      countInit (run (step s1 (Op.createContext req hints)) l).calls = 1 := by
    intro l hl
    obtain ⟨h1, h2⟩ := run_contextOps_initialized l _ c1 hl
    exact ⟨h1, h2.trans c2⟩
  exact ⟨⟨p1, p2'⟩, ⟨hsucc, c1, c2⟩,
    fun k => later (post.take k) (fun op ho => hpost op (List.mem_of_mem_take ho)),
    later post hpost⟩

/-- C3 on a concrete sequence with three `CreateContext` calls. -/
theorem C3_witness_three_contexts :
    countInit (run (World.fresh cfg30 0 win0)
      ([Op.makeCurrent, Op.swapWindow] ++ Op.createContext cfg20 noHints ::
        [Op.makeCurrent, Op.deleteContext, Op.createContext cfg20 noHints, Op.swapWindow,
          Op.setSwapInterval 1, Op.getSwapInterval, Op.deleteContext,
          Op.createContext cfg20 noHints])).calls = 1 :=
  (C3_initializer_runs_once cfg30 0 win0 [Op.makeCurrent, Op.swapWindow]
    [Op.makeCurrent, Op.deleteContext, Op.createContext cfg20 noHints, Op.swapWindow,
      Op.setSwapInterval 1, Op.getSwapInterval, Op.deleteContext,
      Op.createContext cfg20 noHints]
    cfg20 noHints (by decide) (by decide) (by decide)).2.2.2.2

/-! ## C4 -/

/-- C4: when `vgl_initialized` is 0, each of `VITA_VGL_SwapWindow`,
`VITA_VGL_SetSwapInterval`, `VITA_VGL_GetSwapInterval`, `VITA_VGL_MakeCurrent` and
`VITA_VGL_DeleteContext` does nothing but set the error "vitaGL is not initialized": the
four that return a value return -1, and the state after the call is the state before it
with that error set, so no native call is issued and `vgl_initialized`, `vgl_rendering` and
the stored swap interval are as they were. -/
theorem C4_uninitialized_operations_fail (s : World) (interval : Int)
    (h : s.vgl_initialized = 0) :
    (VITA_VGL_SwapWindow s = (-1, { s with error := some "vitaGL is not initialized" }) ∧
      VITA_VGL_SetSwapInterval interval s =
        (-1, { s with error := some "vitaGL is not initialized" }) ∧
      VITA_VGL_GetSwapInterval s = (-1, { s with error := some "vitaGL is not initialized" }) ∧
      VITA_VGL_MakeCurrent s = (-1, { s with error := some "vitaGL is not initialized" }) ∧
      VITA_VGL_DeleteContext s = { s with error := some "vitaGL is not initialized" }) ∧
    ((VITA_VGL_SwapWindow s).2.calls = s.calls ∧
      (VITA_VGL_SetSwapInterval interval s).2.calls = s.calls ∧
      (VITA_VGL_GetSwapInterval s).2.calls = s.calls ∧
      (VITA_VGL_MakeCurrent s).2.calls = s.calls ∧
      (VITA_VGL_DeleteContext s).calls = s.calls) ∧
    ((VITA_VGL_SwapWindow s).2.vgl_initialized = 0 ∧
      (VITA_VGL_SetSwapInterval interval s).2.vgl_initialized = 0 ∧
      (VITA_VGL_GetSwapInterval s).2.vgl_initialized = 0 ∧
      (VITA_VGL_MakeCurrent s).2.vgl_initialized = 0 ∧
      (VITA_VGL_DeleteContext s).vgl_initialized = 0) ∧
    ((VITA_VGL_SwapWindow s).2.vgl_rendering = s.vgl_rendering ∧
      (VITA_VGL_SetSwapInterval interval s).2.vgl_rendering = s.vgl_rendering ∧
      (VITA_VGL_GetSwapInterval s).2.vgl_rendering = s.vgl_rendering ∧
      (VITA_VGL_MakeCurrent s).2.vgl_rendering = s.vgl_rendering ∧
      (VITA_VGL_DeleteContext s).vgl_rendering = s.vgl_rendering) ∧
    ((VITA_VGL_SwapWindow s).2.swapinterval = s.swapinterval ∧
      (VITA_VGL_SetSwapInterval interval s).2.swapinterval = s.swapinterval ∧
      (VITA_VGL_GetSwapInterval s).2.swapinterval = s.swapinterval ∧
      (VITA_VGL_MakeCurrent s).2.swapinterval = s.swapinterval ∧
      (VITA_VGL_DeleteContext s).swapinterval = s.swapinterval) := by
  rw [swapWindow_uninit s h, setSwapInterval_uninit interval s h, getSwapInterval_uninit s h,
    makeCurrent_uninit s h, deleteContext_uninit s h]
  simp [SDL_SetError, h]

/-- C4 in a fresh process, with a swap interval of 7 stored and 1 asked for. -/
theorem C4_witness_fresh :
    (World.fresh cfg20 7 win0).vgl_initialized = 0 ∧
      (VITA_VGL_SetSwapInterval 1 (World.fresh cfg20 7 win0)).1 = -1 ∧
      (VITA_VGL_SetSwapInterval 1 (World.fresh cfg20 7 win0)).2.swapinterval = 7 ∧
      (VITA_VGL_SetSwapInterval 1 (World.fresh cfg20 7 win0)).2.calls = [] ∧
      (VITA_VGL_SetSwapInterval 1 (World.fresh cfg20 7 win0)).2.error =
        some "vitaGL is not initialized" :=
  have h := C4_uninitialized_operations_fail (World.fresh cfg20 7 win0) 1 rfl
  ⟨rfl, by rw [h.1.2.1], h.2.2.2.2.2.1, h.2.1.2.1, by rw [h.1.2.1]⟩

/-! ## C5 -/

/-- C5: in every state with `vgl_initialized` set, whether a scene is open or not,
`VITA_VGL_SwapWindow` returns 0 and leaves `vgl_rendering` at 1; so this holds after any
sequence of calls. In particular, from any state `t` in which `VITA_VGL_CreateContext`
succeeds, the sequence `CreateContext`, `MakeCurrent`, `DeleteContext`, `SwapWindow` ends
with `SwapWindow` returning 0 and `vgl_rendering` at 1, the scene having been closed by
`DeleteContext` just before. -/
theorem C5_swapWindow_leaves_scene_open (s t : World) (hints : Hints)
    (hs : s.vgl_initialized ≠ 0)
    (ht : (VITA_VGL_CreateContext hints t).1 = SDL_GLContext.dummy) :
    ((VITA_VGL_SwapWindow s).1 = 0 ∧ (VITA_VGL_SwapWindow s).2.vgl_rendering = 1) ∧
    ((VITA_VGL_MakeCurrent (VITA_VGL_CreateContext hints t).2).1 = 0 ∧
      (VITA_VGL_DeleteContext
        (VITA_VGL_MakeCurrent (VITA_VGL_CreateContext hints t).2).2).vgl_rendering = 0 ∧
      (VITA_VGL_SwapWindow (VITA_VGL_DeleteContext
        (VITA_VGL_MakeCurrent (VITA_VGL_CreateContext hints t).2).2)).1 = 0 ∧
      (VITA_VGL_SwapWindow (VITA_VGL_DeleteContext
        (VITA_VGL_MakeCurrent (VITA_VGL_CreateContext hints t).2).2)).2.vgl_rendering = 1) := by
  refine ⟨⟨swapWindow_result s hs, swapWindow_rendering s hs⟩, ?_⟩
  have h1 : (VITA_VGL_CreateContext hints t).2.vgl_initialized ≠ 0 := by
    rw [createContext_initialized]
    rw [createContext_dummy_iff_acceptable] at ht
    by_cases h0 : t.vgl_initialized = 0 <;> simp [ht, h0]
  have h2 : (VITA_VGL_MakeCurrent (VITA_VGL_CreateContext hints t).2).2.vgl_initialized ≠ 0 := by
    rw [makeCurrent_initialized]; exact h1
  have h3 : (VITA_VGL_DeleteContext
      (VITA_VGL_MakeCurrent (VITA_VGL_CreateContext hints t).2).2).vgl_initialized ≠ 0 := by
    rw [deleteContext_initialized]; exact h2
  exact ⟨makeCurrent_result _ h1, deleteContext_rendering _ h2, swapWindow_result _ h3,
    swapWindow_rendering _ h3⟩

/-- C5 on the scenario of the spec, from a fresh process. -/
theorem C5_witness_scenario :
    (run fresh0 [Op.createContext cfg20 noHints, Op.makeCurrent,
        Op.deleteContext]).vgl_initialized ≠ 0 ∧
      (run fresh0 [Op.createContext cfg20 noHints, Op.makeCurrent,
        Op.deleteContext]).vgl_rendering = 0 ∧
      (VITA_VGL_SwapWindow (run fresh0 [Op.createContext cfg20 noHints, Op.makeCurrent,
        Op.deleteContext])).1 = 0 ∧
      (VITA_VGL_SwapWindow (run fresh0 [Op.createContext cfg20 noHints, Op.makeCurrent,
        Op.deleteContext])).2.vgl_rendering = 1 :=
  have h := C5_swapWindow_leaves_scene_open
    (run fresh0 [Op.createContext cfg20 noHints, Op.makeCurrent, Op.deleteContext]) fresh0
    noHints (by decide) (by decide)
  ⟨by decide, by decide, h.1.1, h.1.2⟩

/-! ## C6 -/

/-- C6, the failing input: after `CreateContext` and `MakeCurrent` in a fresh process both
flags are set, so "scene open implies initialized" holds; `VITA_VGL_UnloadLibrary` then
clears `vgl_initialized` and leaves `vgl_rendering` at 1, so the implication is broken and
the two flags are not both false. -/
theorem C6_unloadLibrary_leaves_scene_flag :
    ((run fresh0 [Op.createContext cfg20 noHints, Op.makeCurrent]).vgl_rendering ≠ 0 →
      (run fresh0 [Op.createContext cfg20 noHints, Op.makeCurrent]).vgl_initialized ≠ 0) ∧
    (VITA_VGL_UnloadLibrary
      (run fresh0 [Op.createContext cfg20 noHints, Op.makeCurrent])).vgl_initialized = 0 ∧
    (VITA_VGL_UnloadLibrary
      (run fresh0 [Op.createContext cfg20 noHints, Op.makeCurrent])).vgl_rendering = 1 := by
  decide

/-! ## C7 -/

theorem initModes_append (l₁ l₂ : List NativeCall) :
    initModes (l₁ ++ l₂) = initModes l₁ ++ initModes l₂ := by
  simp [initModes]

/-- The multisample mode of first-time initialization: a successful
`VITA_VGL_CreateContext` in an uninitialized state passes `gxm_ms` of the requested sample
count to `vglInitExtended`, in the one call it makes of it. -/
theorem createContext_first_initModes (hints : Hints) (s : World)
    (h0 : s.vgl_initialized = 0)
    (hok : (VITA_VGL_CreateContext hints s).1 = SDL_GLContext.dummy) :
    initModes (VITA_VGL_CreateContext hints s).2.calls =
      initModes s.calls ++ [gxm_ms s.gl_config.multisamplesamples] := by
  rw [createContext_dummy_iff_acceptable] at hok
  rw [createContext_calls, initModes_append]
  by_cases hv : hints.use_vram = true <;> simp [hok, h0, hv, initModes]

/-- C8: when `VITA_VGL_CreateContext` succeeds in an uninitialized state, it calls
`vglInitExtended` once, and the multisample mode it passes is `NONE` for a requested
sample count of 0, `2X` for 2 and `4X` for 4; for 8 and for 16 it is `4X` as well, the same
mode as for 4. -/
theorem C8_multisample_mode (hints : Hints) (s : World)
    (h0 : s.vgl_initialized = 0)
    (hok : (VITA_VGL_CreateContext hints s).1 = SDL_GLContext.dummy) :
    (s.gl_config.multisamplesamples = 0 →
      initModes (VITA_VGL_CreateContext hints s).2.calls =
        initModes s.calls ++ [SCE_GXM_MULTISAMPLE_NONE]) ∧
    (s.gl_config.multisamplesamples = 2 →
      initModes (VITA_VGL_CreateContext hints s).2.calls =
        initModes s.calls ++ [SCE_GXM_MULTISAMPLE_2X]) ∧
    (s.gl_config.multisamplesamples = 4 →
      initModes (VITA_VGL_CreateContext hints s).2.calls =
        initModes s.calls ++ [SCE_GXM_MULTISAMPLE_4X]) ∧
    (s.gl_config.multisamplesamples = 8 →
      initModes (VITA_VGL_CreateContext hints s).2.calls =
        initModes s.calls ++ [SCE_GXM_MULTISAMPLE_4X]) ∧
    (s.gl_config.multisamplesamples = 16 →
      initModes (VITA_VGL_CreateContext hints s).2.calls =
        initModes s.calls ++ [SCE_GXM_MULTISAMPLE_4X]) := by
  rw [createContext_first_initModes hints s h0 hok]
  refine ⟨?_, ?_, ?_, ?_, ?_⟩ <;> intro h <;> rw [h] <;> rfl

/-- C8 on the scenario of the spec: a fresh process asking for 2.0, compatibility profile,
4 samples; and the same with 16 samples. -/
theorem C8_witness_fresh_4_samples :
    (VITA_VGL_CreateContext noHints
        (World.fresh { cfg20 with multisamplesamples := 4 } 0 win0)).1 = SDL_GLContext.dummy ∧
      (VITA_VGL_CreateContext noHints
        (World.fresh { cfg20 with multisamplesamples := 4 } 0 win0)).2.vgl_initialized = 1 ∧
      initModes (VITA_VGL_CreateContext noHints
        (World.fresh { cfg20 with multisamplesamples := 4 } 0 win0)).2.calls =
          [SCE_GXM_MULTISAMPLE_4X] ∧
      initModes (VITA_VGL_CreateContext noHints
        (World.fresh { cfg20 with multisamplesamples := 16 } 0 win0)).2.calls =
          [SCE_GXM_MULTISAMPLE_4X] :=
  ⟨by decide, by decide,
    (C8_multisample_mode noHints (World.fresh { cfg20 with multisamplesamples := 4 } 0 win0)
      rfl (by decide)).2.2.1 rfl,
    (C8_multisample_mode noHints (World.fresh { cfg20 with multisamplesamples := 16 } 0 win0)
      rfl (by decide)).2.2.2.2 rfl⟩

/-! ## C9 -/

/-- C9: `VITA_VGL_UnloadLibrary` issues exactly one native call, `vglEnd`, when
`vgl_initialized` is set and none when it is not; it leaves `vgl_initialized` at 0; and a
second call right after the first changes nothing at all, so it issues no native call and
two calls in a row leave the state one call leaves. -/
theorem C9_unloadLibrary_idempotent (s : World) :
    (VITA_VGL_UnloadLibrary s).calls =
        s.calls ++ (if s.vgl_initialized ≠ 0 then [vglEnd] else []) ∧
      (VITA_VGL_UnloadLibrary s).vgl_initialized = 0 ∧
      VITA_VGL_UnloadLibrary (VITA_VGL_UnloadLibrary s) = VITA_VGL_UnloadLibrary s ∧
      (VITA_VGL_UnloadLibrary (VITA_VGL_UnloadLibrary s)).calls =
        (VITA_VGL_UnloadLibrary s).calls := by
  have idem : VITA_VGL_UnloadLibrary (VITA_VGL_UnloadLibrary s) = VITA_VGL_UnloadLibrary s := by
    unfold VITA_VGL_UnloadLibrary
    split_ifs <;> simp_all [call]
  exact ⟨unloadLibrary_calls s, unloadLibrary_initialized s, idem, by rw [idem]⟩

/-- C9 on an initialized backend: one `vglEnd`, then nothing more. -/
theorem C9_witness_after_context :
    (VITA_VGL_UnloadLibrary (run fresh0 [Op.createContext cfg20 noHints])).calls =
        (run fresh0 [Op.createContext cfg20 noHints]).calls ++ [vglEnd] ∧
      (VITA_VGL_UnloadLibrary (VITA_VGL_UnloadLibrary
        (run fresh0 [Op.createContext cfg20 noHints]))).calls =
        (run fresh0 [Op.createContext cfg20 noHints]).calls ++ [vglEnd] :=
  have h := C9_unloadLibrary_idempotent (run fresh0 [Op.createContext cfg20 noHints])
  ⟨by decide, by rw [h.2.2.2]; decide⟩

/-! ## C10 -/

/-- C10: on an initialized backend `VITA_VGL_DeleteContext` leaves `vgl_initialized` as it
is and leaves `vgl_rendering` at 0; the native calls it issues are `vglStopRendering` then
`glFinish` when a scene was open, and none when no scene was open. -/
theorem C10_deleteContext (s : World) (h : s.vgl_initialized ≠ 0) :
    (VITA_VGL_DeleteContext s).vgl_initialized = s.vgl_initialized ∧
      (VITA_VGL_DeleteContext s).vgl_initialized ≠ 0 ∧
      (VITA_VGL_DeleteContext s).vgl_rendering = 0 ∧
      (VITA_VGL_DeleteContext s).calls =
        s.calls ++ (if s.vgl_rendering ≠ 0 then [vglStopRendering, glFinish] else []) := by
  refine ⟨deleteContext_initialized s, ?_, deleteContext_rendering s h, deleteContext_calls s h⟩
  rw [deleteContext_initialized]
  exact h

/-- C10 with a scene open (after `MakeCurrent`) and with none (after a second
`DeleteContext`). -/
theorem C10_witness_open_and_closed :
    (run fresh0 [Op.createContext cfg20 noHints, Op.makeCurrent]).vgl_rendering = 1 ∧
      (VITA_VGL_DeleteContext
        (run fresh0 [Op.createContext cfg20 noHints, Op.makeCurrent])).calls =
        (run fresh0 [Op.createContext cfg20 noHints, Op.makeCurrent]).calls ++
          [vglStopRendering, glFinish] ∧
      (VITA_VGL_DeleteContext
        (run fresh0 [Op.createContext cfg20 noHints, Op.makeCurrent])).vgl_initialized = 1 ∧
      (VITA_VGL_DeleteContext
        (run fresh0 [Op.createContext cfg20 noHints, Op.makeCurrent])).vgl_rendering = 0 :=
  have h := C10_deleteContext (run fresh0 [Op.createContext cfg20 noHints, Op.makeCurrent])
    (by decide)
  ⟨by decide, by rw [h.2.2.2]; decide, by rw [h.1]; decide, h.2.2.1⟩

/-! ## The scene flag under the operations other than `UnloadLibrary` -/

/-- The flag `vgl_rendering` after one operation. -/
theorem step_rendering (s : World) (op : Op) :
    (step s op).vgl_rendering =
      match op with
      | Op.makeCurrent => if s.vgl_initialized = 0 then s.vgl_rendering else 1
      | Op.swapWindow => if s.vgl_initialized = 0 then s.vgl_rendering else 1
      | Op.deleteContext => if s.vgl_initialized = 0 then s.vgl_rendering else 0
      | _ => s.vgl_rendering := by
  cases op with
  | loadLibrary => rfl
  | unloadLibrary => exact unloadLibrary_rendering s
  | getProcAddress proc => rfl
  | createContext req hints =>
    simp only [step]
    rw [createContext_rendering, request_rendering]
  | makeCurrent =>
    simp only [step]
    by_cases h : s.vgl_initialized = 0
    · rw [makeCurrent_uninit s h]; simp [h, SDL_SetError]
    · rw [makeCurrent_rendering s h]; simp [h]
  | setSwapInterval n =>
    simp only [step, VITA_VGL_SetSwapInterval]
    split_ifs <;> rfl
  | getSwapInterval =>
    simp only [step, VITA_VGL_GetSwapInterval]
    split_ifs <;> rfl
  | swapWindow =>
    simp only [step]
    by_cases h : s.vgl_initialized = 0
    · rw [swapWindow_uninit s h]; simp [h, SDL_SetError]
    · rw [swapWindow_rendering s h]; simp [h]
  | deleteContext =>
    simp only [step]
    by_cases h : s.vgl_initialized = 0
    · rw [deleteContext_uninit s h]; simp [h, SDL_SetError]
    · rw [deleteContext_rendering s h]; simp [h]
  | defaultProfileConfig => rfl

/-- Every operation other than `UnloadLibrary` preserves "a scene is open only if the
backend is initialized": if `vgl_rendering ≠ 0` implies `vgl_initialized ≠ 0` before the
operation, it does so after it. -/
theorem scene_implies_initialized_step (s : World) (op : Op) (hop : op ≠ Op.unloadLibrary)
    (h : s.vgl_rendering ≠ 0 → s.vgl_initialized ≠ 0) :
    (step s op).vgl_rendering ≠ 0 → (step s op).vgl_initialized ≠ 0 := by
  rw [step_rendering, step_initialized]
  cases op with
  | unloadLibrary => exact absurd rfl hop
  | createContext req hints =>
    simp only
    intro hr
    split_ifs with hc
    · exact one_ne_zero
    · exact h hr
  | makeCurrent => simp only; split_ifs with h0 <;> simp_all
  | swapWindow => simp only; split_ifs with h0 <;> simp_all
  | deleteContext => simp only; split_ifs with h0 <;> simp_all
  | _ => exact h

/-- The preservation at work: `SwapWindow` after `CreateContext` in a fresh process. -/
theorem scene_implies_initialized_step_witness :
    (step (run fresh0 [Op.createContext cfg20 noHints]) Op.swapWindow).vgl_rendering ≠ 0 ∧
      (step (run fresh0 [Op.createContext cfg20 noHints]) Op.swapWindow).vgl_initialized ≠ 0 :=
  ⟨by decide,
    scene_implies_initialized_step (run fresh0 [Op.createContext cfg20 noHints]) Op.swapWindow
      (by decide) (by decide) (by decide)⟩

/-! ## C11 -/

/-- C11: on an initialized backend, for every integer `n`, `VITA_VGL_SetSwapInterval n`
returns 0, stores `n` as the swap interval and issues exactly one native call,
`vglWaitVblankStart n`; `VITA_VGL_GetSwapInterval` called next returns `n` and changes
nothing; `vgl_initialized` and `vgl_rendering` are as before after both calls. -/
theorem C11_setSwapInterval_getSwapInterval (n : Int) (s : World)
    (h : s.vgl_initialized ≠ 0) :
    (VITA_VGL_SetSwapInterval n s).1 = 0 ∧
      (VITA_VGL_SetSwapInterval n s).2.swapinterval = n ∧
      (VITA_VGL_SetSwapInterval n s).2.calls = s.calls ++ [vglWaitVblankStart n] ∧
      (VITA_VGL_GetSwapInterval (VITA_VGL_SetSwapInterval n s).2).1 = n ∧
      (VITA_VGL_GetSwapInterval (VITA_VGL_SetSwapInterval n s).2).2 =
        (VITA_VGL_SetSwapInterval n s).2 ∧
      (VITA_VGL_SetSwapInterval n s).2.vgl_initialized = s.vgl_initialized ∧
      (VITA_VGL_SetSwapInterval n s).2.vgl_rendering = s.vgl_rendering ∧
      (VITA_VGL_GetSwapInterval (VITA_VGL_SetSwapInterval n s).2).2.vgl_initialized =
        s.vgl_initialized ∧
      (VITA_VGL_GetSwapInterval (VITA_VGL_SetSwapInterval n s).2).2.vgl_rendering =
        s.vgl_rendering := by
  have h2 : (call (vglWaitVblankStart n) { s with swapinterval := n }).vgl_initialized ≠ 0 := h
  rw [setSwapInterval_init n s h, getSwapInterval_init _ h2]
  simp [call]

/-- C11 with a negative interval, after `CreateContext` and `MakeCurrent` in a fresh
process. -/
theorem C11_witness_negative_interval :
    (run fresh0 [Op.createContext cfg20 noHints, Op.makeCurrent]).vgl_initialized ≠ 0 ∧
      (VITA_VGL_SetSwapInterval (-1)
        (run fresh0 [Op.createContext cfg20 noHints, Op.makeCurrent])).1 = 0 ∧
      (VITA_VGL_GetSwapInterval (VITA_VGL_SetSwapInterval (-1)
        (run fresh0 [Op.createContext cfg20 noHints, Op.makeCurrent])).2).1 = -1 :=
  have h := C11_setSwapInterval_getSwapInterval (-1)
    (run fresh0 [Op.createContext cfg20 noHints, Op.makeCurrent]) (by decide)
  ⟨by decide, h.1, h.2.2.2.1⟩

/-! ## C12 -/

theorem hint_or_none (dflt : Nat) : hint_or none dflt = dflt := rfl

theorem hint_or_some (v dflt : Nat) (hv : IsULong32 v) :
    hint_or (some v) dflt = if v = 0 then dflt else v := by
  unfold IsULong32 at hv
  simp only [hint_or, Nat.mod_eq_of_lt hv]

/-- C12: when `VITA_VGL_CreateContext` succeeds in an uninitialized state, with hints
whose parsed values are `unsigned long`s of the target, the one call of `vglInitExtended`
it makes has width 960 and height 544; its GPU pool size is the parsed GPU-pool hint, or
8 MiB when that hint is unset or parses to 0; its RAM threshold is the parsed
RAM-threshold hint, or 16 MiB when that hint is unset or parses to 0. -/
theorem C12_initializer_arguments (hints : Hints) (s : World)
    (h0 : s.vgl_initialized = 0)
    (hok : (VITA_VGL_CreateContext hints s).1 = SDL_GLContext.dummy)
    (hw : hints.WellTyped) :
    (VITA_VGL_CreateContext hints s).2.calls =
      s.calls ++
        [vglInitExtended
          (match hints.gpu_pool_size with
            | none => 8 * 1024 * 1024
            | some v => if v = 0 then 8 * 1024 * 1024 else v)
          960 544
          (match hints.ram_threshold with
            | none => 16 * 1024 * 1024
            | some v => if v = 0 then 16 * 1024 * 1024 else v)
          (gxm_ms s.gl_config.multisamplesamples)] ++
        (if hints.use_vram then [vglUseVram true] else []) := by
  rw [createContext_dummy_iff_acceptable] at hok
  obtain ⟨hw1, hw2⟩ := hw
  rw [createContext_calls]
  simp only [hok, h0, if_true, List.append_assoc]
  cases hg : hints.gpu_pool_size with
  | none =>
    cases hr : hints.ram_threshold with
    | none => simp only [hint_or_none]
    | some u => simp only [hint_or_none, hint_or_some u _ (hw2 u hr)]
  | some v =>
    cases hr : hints.ram_threshold with
    | none => simp only [hint_or_none, hint_or_some v _ (hw1 v hg)]
    | some u => simp only [hint_or_some v _ (hw1 v hg), hint_or_some u _ (hw2 u hr)]

/-- C12 with a GPU-pool hint of 32 MiB and a RAM-threshold hint that parses to 0. -/
theorem C12_witness_hints :
    (VITA_VGL_CreateContext
        { gpu_pool_size := some 0x2000000, ram_threshold := some 0, use_vram := false }
        fresh0).2.calls =
      [vglInitExtended 0x2000000 960 544 0x1000000 SCE_GXM_MULTISAMPLE_NONE] :=
  C12_initializer_arguments
    { gpu_pool_size := some 0x2000000, ram_threshold := some 0, use_vram := false } fresh0
    rfl (by decide)
    ⟨fun v hv => by cases hv; decide, fun v hv => by cases hv; decide⟩

/-! ## C13 -/

/-- C13: `VITA_GLES_DefaultProfileConfig` yields (ES, 2, 0) and
`VITA_VGL_DefaultProfileConfig` yields (compatibility, 2, 0) in every state; and a request
whose profile, major and minor are those of `VITA_VGL_DefaultProfileConfig` is granted by
`VITA_VGL_CreateContext`, in every state and under every setting of the hints. -/
theorem C13_defaultProfileConfig (s t : World) (hints : Hints)
    (hp : t.gl_config.profile_mask = (VITA_VGL_DefaultProfileConfig s).1)
    (hM : t.gl_config.major_version = (VITA_VGL_DefaultProfileConfig s).2.1)
    (hm : t.gl_config.minor_version = (VITA_VGL_DefaultProfileConfig s).2.2) :
    VITA_GLES_DefaultProfileConfig = (SDL_GL_CONTEXT_PROFILE_ES, 2, 0) ∧
      VITA_VGL_DefaultProfileConfig s = (SDL_GL_CONTEXT_PROFILE_COMPATIBILITY, 2, 0) ∧
      (VITA_VGL_CreateContext hints t).1 = SDL_GLContext.dummy := by
  refine ⟨rfl, rfl, ?_⟩
  rw [createContext_dummy_iff]
  have hM' : t.gl_config.major_version = 2 := hM
  have hm' : t.gl_config.minor_version = 0 := hm
  have hp' : t.gl_config.profile_mask = 2 := hp
  have hv : ¬ dbl_2_05 < gl_ver t.gl_config := by
    rw [gl_ver_gt_iff t.gl_config (by rw [hM']; decide) (by rw [hm']; decide), hM', hm']
    decide
  have he : ¬ t.gl_config.profile_mask = SDL_GL_CONTEXT_PROFILE_ES := by
    rw [hp']; decide
  exact fun h => h.elim hv he

/-- C13 in a fresh process whose `gl_config` holds the default of the backend. -/
theorem C13_witness_fresh :
    VITA_VGL_DefaultProfileConfig fresh0 = (2, 2, 0) ∧
      (VITA_VGL_CreateContext noHints fresh0).1 = SDL_GLContext.dummy :=
  have h := C13_defaultProfileConfig fresh0 fresh0 noHints rfl rfl rfl
  ⟨h.2.1, h.2.2⟩

/-! ## C14 -/

/-- C14, as stated, fails: with no scene open, `VITA_VGL_MakeCurrent` issues
`glClearColor(0, 0, 0, 0)` and then begin-scene, clear, end-scene, begin-scene, clear,
end-scene, flush, begin-scene; there is one `glFinish`, after the second clear cycle, and none
between the two cycles, so the sequence is not the one of the claim, which has two. -/
theorem C14_counterexample_single_flush :
    (run fresh0 [Op.createContext cfg20 noHints]).vgl_initialized ≠ 0 ∧
      (run fresh0 [Op.createContext cfg20 noHints]).vgl_rendering = 0 ∧
      (VITA_VGL_MakeCurrent (run fresh0 [Op.createContext cfg20 noHints])).2.calls =
        (run fresh0 [Op.createContext cfg20 noHints]).calls ++
          [glClearColor 0 0 0 0, vglStartRendering, glClear CLEAR_ALL, vglStopRendering,
            vglStartRendering, glClear CLEAR_ALL, vglStopRendering, glFinish,
            vglStartRendering] ∧
      (((VITA_VGL_MakeCurrent (run fresh0 [Op.createContext cfg20 noHints])).2.calls.drop
          (run fresh0 [Op.createContext cfg20 noHints]).calls.length).filter
            (fun c => match c with | glClearColor _ _ _ _ => false | _ => true)) ≠
        [vglStartRendering, glClear CLEAR_ALL, vglStopRendering, glFinish,
          vglStartRendering, glClear CLEAR_ALL, vglStopRendering, glFinish,
          vglStartRendering] ∧
      ((VITA_VGL_MakeCurrent (run fresh0 [Op.createContext cfg20 noHints])).2.calls.drop
        (run fresh0 [Op.createContext cfg20 noHints]).calls.length).count glFinish = 1 := by
  decide

/-- C14, amended: on an initialized backend `VITA_VGL_MakeCurrent` returns 0, leaves
`vgl_rendering` at 1 and issues exactly this native sequence: end-scene and flush if a
scene was open; then `glClearColor` with all four components zero, begin-scene, clear of
colour, depth and stencil, end-scene, begin-scene, the same clear, end-scene, one flush;
then begin-scene. -/
theorem C14_makeCurrent_sequence (s : World) (h : s.vgl_initialized ≠ 0) :
    (VITA_VGL_MakeCurrent s).1 = 0 ∧
      (VITA_VGL_MakeCurrent s).2.vgl_rendering = 1 ∧
      (VITA_VGL_MakeCurrent s).2.calls =
        s.calls ++ (if s.vgl_rendering ≠ 0 then [vglStopRendering, glFinish] else []) ++
          [glClearColor 0 0 0 0,
            vglStartRendering,
            glClear (GL_COLOR_BUFFER_BIT ||| GL_DEPTH_BUFFER_BIT ||| GL_STENCIL_BUFFER_BIT),
            vglStopRendering,
            vglStartRendering,
            glClear (GL_COLOR_BUFFER_BIT ||| GL_DEPTH_BUFFER_BIT ||| GL_STENCIL_BUFFER_BIT),
            vglStopRendering,
            glFinish,
            vglStartRendering] :=
  ⟨makeCurrent_result s h, makeCurrent_rendering s h, makeCurrent_calls s h⟩

/-- C14 with a scene open: a second `MakeCurrent` first closes the scene and flushes. -/
theorem C14_witness_scene_open :
    (run fresh0 [Op.createContext cfg20 noHints, Op.makeCurrent]).vgl_rendering ≠ 0 ∧
      (VITA_VGL_MakeCurrent
        (run fresh0 [Op.createContext cfg20 noHints, Op.makeCurrent])).2.calls =
        (run fresh0 [Op.createContext cfg20 noHints, Op.makeCurrent]).calls ++
          [vglStopRendering, glFinish] ++
          [glClearColor 0 0 0 0, vglStartRendering, glClear 0x4500, vglStopRendering,
            vglStartRendering, glClear 0x4500, vglStopRendering, glFinish,
            vglStartRendering] :=
  have h := C14_makeCurrent_sequence
    (run fresh0 [Op.createContext cfg20 noHints, Op.makeCurrent]) (by decide)
  ⟨by decide, by rw [h.2.2]; decide⟩

/-! ## C15 -/

/-- C15: on an initialized backend `VITA_VGL_SwapWindow` returns 0, leaves
`vgl_initialized` as it is, and issues exactly end-scene then begin-scene when a scene was
open and exactly begin-scene when none was; so every call it issues is a begin-scene or an
end-scene, never a `glFinish` and never a `glClear`. -/
theorem C15_swapWindow_sequence (s : World) (h : s.vgl_initialized ≠ 0) :
    (VITA_VGL_SwapWindow s).1 = 0 ∧
      (VITA_VGL_SwapWindow s).2.vgl_initialized = s.vgl_initialized ∧
      (VITA_VGL_SwapWindow s).2.calls =
        s.calls ++
          (if s.vgl_rendering ≠ 0 then [vglStopRendering, vglStartRendering]
            else [vglStartRendering]) ∧
      (∀ c ∈ (VITA_VGL_SwapWindow s).2.calls.drop s.calls.length,
        c = vglStopRendering ∨ c = vglStartRendering) ∧
      glFinish ∉ (VITA_VGL_SwapWindow s).2.calls.drop s.calls.length ∧
      (∀ mask, glClear mask ∉ (VITA_VGL_SwapWindow s).2.calls.drop s.calls.length) := by
  have hc : (VITA_VGL_SwapWindow s).2.calls =
      s.calls ++
        (if s.vgl_rendering ≠ 0 then [vglStopRendering, vglStartRendering]
          else [vglStartRendering]) := by
    rw [swapWindow_calls s h]
    split_ifs <;> simp
  refine ⟨swapWindow_result s h, swapWindow_initialized s, hc, ?_, ?_, ?_⟩
  · rw [hc, List.drop_left]
    split_ifs <;> simp
  · rw [hc, List.drop_left]
    split_ifs <;> simp
  · intro mask
    rw [hc, List.drop_left]
    split_ifs <;> simp

/-- C15 with a scene open (after `MakeCurrent`). -/
theorem C15_witness_scene_open :
    (VITA_VGL_SwapWindow
        (run fresh0 [Op.createContext cfg20 noHints, Op.makeCurrent])).2.calls =
      (run fresh0 [Op.createContext cfg20 noHints, Op.makeCurrent]).calls ++
        [vglStopRendering, vglStartRendering] :=
  (C15_swapWindow_sequence (run fresh0 [Op.createContext cfg20 noHints, Op.makeCurrent])
    (by decide)).2.2.1.trans (by decide)

/-! ## C16 -/

theorem createContext_granted_window (hints : Hints) (s : World)
    (h : ¬(dbl_2_05 < gl_ver s.gl_config ∨
      s.gl_config.profile_mask = SDL_GL_CONTEXT_PROFILE_ES)) :
    (VITA_VGL_CreateContext hints s).2.window =
      { uses_gl := true, flags := s.window.flags ||| SDL_WINDOW_FULLSCREEN } := by
  simp only [VITA_VGL_CreateContext, if_neg h]
  unfold vgl_init_once
  split_ifs <;> rfl

/-- C17: every successful `VITA_VGL_CreateContext` sets the window's `uses_gl`, makes the
window flags the old flags or-ed with `SDL_WINDOW_FULLSCREEN` (so the fullscreen bit is
set and every other bit is as it was, and a 32-bit flags word stays one), and leaves
`vgl_rendering` as it was. -/
theorem C17_window_marked_fullscreen (hints : Hints) (s : World)
    (hok : (VITA_VGL_CreateContext hints s).1 = SDL_GLContext.dummy) :
    (VITA_VGL_CreateContext hints s).2.window.uses_gl = true ∧
      (VITA_VGL_CreateContext hints s).2.window.flags =
        s.window.flags ||| SDL_WINDOW_FULLSCREEN ∧
      (∀ i : Nat, (VITA_VGL_CreateContext hints s).2.window.flags.testBit i =
        (s.window.flags.testBit i || SDL_WINDOW_FULLSCREEN.testBit i)) ∧
      (s.window.flags < 2 ^ 32 → (VITA_VGL_CreateContext hints s).2.window.flags < 2 ^ 32) ∧
      (VITA_VGL_CreateContext hints s).2.vgl_rendering = s.vgl_rendering := by
  have hg := (createContext_dummy_iff hints s).mp hok
  rw [createContext_granted_window hints s hg]
  refine ⟨rfl, rfl, ?_, ?_, createContext_rendering hints s⟩
  · intro i
    exact Nat.testBit_lor _ _ _
  · intro hlt
    exact Nat.or_lt_two_pow hlt (by decide)

/-- C17 on a window with flags `0x24` set: they become `0x25`. -/
theorem C17_witness_flags :
    (VITA_VGL_CreateContext noHints
        (World.fresh cfg20 0 { flags := 0x24, uses_gl := false })).2.window.uses_gl = true ∧
      (VITA_VGL_CreateContext noHints
        (World.fresh cfg20 0 { flags := 0x24, uses_gl := false })).2.window.flags = 0x25 :=
  have h := C17_window_marked_fullscreen noHints
    (World.fresh cfg20 0 { flags := 0x24, uses_gl := false }) (by decide)
  ⟨h.1, h.2.1.trans (by decide)⟩

/-! ## C18 -/

/-- C18: for versions that are C `int`s, `VITA_VGL_CreateContext` returns `NULL` exactly
when `major + minor * 0.1 > 2.05` or the profile is ES, and `major + minor * 0.1 > 2.05`
says `10 * major + minor ≥ 21`; for every other request (versions below 2.0, zero or
negative components and the core profile included) it returns the dummy handle and leaves
`vgl_initialized` set. The result of `vglInitExtended` is never read, so nothing depends
on it. -/
theorem C18_createContext_fails_iff (hints : Hints) (s : World)
    (hM : IsInt32 s.gl_config.major_version) (hm : IsInt32 s.gl_config.minor_version) :
    ((VITA_VGL_CreateContext hints s).1 = SDL_GLContext.NULL ↔
        ((2.05 : ℚ) < (s.gl_config.major_version : ℚ) + (s.gl_config.minor_version : ℚ) * 0.1 ∨
          s.gl_config.profile_mask = SDL_GL_CONTEXT_PROFILE_ES)) ∧
      ((2.05 : ℚ) < (s.gl_config.major_version : ℚ) + (s.gl_config.minor_version : ℚ) * 0.1 ↔
        21 ≤ 10 * s.gl_config.major_version + s.gl_config.minor_version) ∧
      (¬((2.05 : ℚ) < (s.gl_config.major_version : ℚ) + (s.gl_config.minor_version : ℚ) * 0.1 ∨
          s.gl_config.profile_mask = SDL_GL_CONTEXT_PROFILE_ES) →
        (VITA_VGL_CreateContext hints s).1 = SDL_GLContext.dummy ∧
          (VITA_VGL_CreateContext hints s).2.vgl_initialized ≠ 0) := by
  rw [← gl_ver_exact s.gl_config hM hm]
  refine ⟨?_, ?_, ?_⟩
  · constructor
    · intro hnull
      by_contra hg
      have hd := (createContext_dummy_iff hints s).mpr hg
      rw [hd] at hnull
      exact SDL_GLContext.noConfusion hnull
    · intro hg
      rw [createContext_refused hints s hg]
  · rw [gl_ver_exact s.gl_config hM hm]
    exact version_above_iff _ _
  · intro hg
    refine ⟨(createContext_dummy_iff hints s).mpr hg, ?_⟩
    rw [createContext_granted_initialized hints s hg]
    split_ifs with h0
    · exact one_ne_zero
    · exact h0

/-- C18 at requests the check lets through: 1.5, 0.0, -1.7 and 2.0 with the core
profile; and at 2.1, which it refuses. -/
theorem C18_witness_low_versions :
    ((VITA_VGL_CreateContext noHints
        (World.fresh { cfg20 with major_version := 1, minor_version := 5 } 0 win0)).1 =
          SDL_GLContext.dummy ∧
      (VITA_VGL_CreateContext noHints
        (World.fresh { cfg20 with major_version := 1, minor_version := 5 } 0 win0)
          ).2.vgl_initialized ≠ 0) ∧
      (VITA_VGL_CreateContext noHints
        (World.fresh { cfg20 with major_version := 0, minor_version := 0 } 0 win0)).1 =
          SDL_GLContext.dummy ∧
      (VITA_VGL_CreateContext noHints
        (World.fresh { cfg20 with major_version := -1, minor_version := -7 } 0 win0)).1 =
          SDL_GLContext.dummy ∧
      (VITA_VGL_CreateContext noHints
        (World.fresh { cfg20 with profile_mask := SDL_GL_CONTEXT_PROFILE_CORE } 0 win0)).1 =
          SDL_GLContext.dummy ∧
      (VITA_VGL_CreateContext noHints
        (World.fresh { cfg20 with major_version := 2, minor_version := 1 } 0 win0)).1 =
          SDL_GLContext.NULL :=
  ⟨(C18_createContext_fails_iff noHints
      (World.fresh { cfg20 with major_version := 1, minor_version := 5 } 0 win0)
      (by decide) (by decide)).2.2
      (by norm_num [World.fresh, cfg20, SDL_GL_CONTEXT_PROFILE_COMPATIBILITY,
        SDL_GL_CONTEXT_PROFILE_ES]),
    by decide, (by set_option maxRecDepth 8192 in decide), by decide,
    (C18_createContext_fails_iff noHints
      (World.fresh { cfg20 with major_version := 2, minor_version := 1 } 0 win0)
      (by decide) (by decide)).1.mpr
      (Or.inl (by norm_num [World.fresh, cfg20]))⟩

/-! ## C19 -/

theorem sceneTrack_foldl_none (calls : List NativeCall) :
    calls.foldl sceneTrack none = none := by
  induction calls with
  | nil => rfl
  | cons c cs ih =>
    rw [List.foldl_cons]
    cases c <;> exact ih

/-- What `sceneTrack` computes: if following `calls` from "scene open = `b0`" ends in
`some b`, the scene calls among `calls` alternate, beginning with a begin-scene exactly
when no scene was open, and `b` says whether the last of them (or, if there is none, the
start) left a scene open. -/
theorem sceneTrack_foldl_spec (calls : List NativeCall) :
    ∀ b0 b : Bool, calls.foldl sceneTrack (some b0) = some b →
      alternatesFrom (!b0) (sceneCalls calls) = true ∧
        (b = true ↔
          (sceneCalls calls).getLast?.getD
            (if b0 then vglStartRendering else vglStopRendering) = vglStartRendering) := by
  induction calls with
  | nil =>
    intro b0 b h
    simp only [List.foldl_nil, Option.some.injEq] at h
    subst h
    cases b0 <;> simp [sceneCalls, alternatesFrom]
  | cons c cs ih =>
    intro b0 b h
    rw [List.foldl_cons] at h
    by_cases hstart : c = vglStartRendering
    · subst hstart
      cases b0 with
      | true =>
        simp only [sceneTrack] at h
        rw [sceneTrack_foldl_none] at h
        exact Option.noConfusion h
      | false =>
        simp only [sceneTrack] at h
        obtain ⟨h1, h2⟩ := ih true b h
        have e : sceneCalls (vglStartRendering :: cs) = vglStartRendering :: sceneCalls cs := by
          simp [sceneCalls]
        rw [e, List.getLast?_cons]
        simp only [Bool.not_true, Bool.not_false, if_true] at h1 h2 ⊢
        refine ⟨by simp [alternatesFrom, h1], ?_⟩
        rw [h2]
        cases (sceneCalls cs).getLast? <;> simp
    · by_cases hstop : c = vglStopRendering
      · subst hstop
        cases b0 with
        | false =>
          simp only [sceneTrack] at h
          rw [sceneTrack_foldl_none] at h
          exact Option.noConfusion h
        | true =>
          simp only [sceneTrack] at h
          obtain ⟨h1, h2⟩ := ih false b h
          have e : sceneCalls (vglStopRendering :: cs) = vglStopRendering :: sceneCalls cs := by
            simp [sceneCalls]
          rw [e, List.getLast?_cons]
          simp only [Bool.not_true, Bool.not_false] at h1 h2 ⊢
          refine ⟨by simp [alternatesFrom, h1], ?_⟩
          rw [h2]
          cases (sceneCalls cs).getLast? <;> simp
      · have e : sceneCalls (c :: cs) = sceneCalls cs := by
          simp [sceneCalls, hstart, hstop]
        have e2 : sceneTrack (some b0) c = some b0 := by
          cases c <;> first | rfl | exact absurd rfl hstart | exact absurd rfl hstop
        rw [e2] at h
        rw [e]
        exact ih b0 b h

theorem sceneLedger_step (s : World) (op : Op) (b : Bool) (h : SceneLedger s b) :
    ∃ b', SceneLedger (step s op) b' := by
  obtain ⟨hr, hs⟩ := h
  unfold SceneLedger sceneState at *
  rw [step_rendering, step_calls, List.foldl_append, hs]
  cases op with
  | makeCurrent =>
    by_cases h0 : s.vgl_initialized = 0
    · exact ⟨b, by simp [h0, hr, emitted]⟩
    · refine ⟨true, ?_⟩
      cases b <;> simp [h0, hr, emitted, sceneTrack]
  | swapWindow =>
    by_cases h0 : s.vgl_initialized = 0
    · exact ⟨b, by simp [h0, hr, emitted]⟩
    · refine ⟨true, ?_⟩
      cases b <;> simp [h0, hr, emitted, sceneTrack]
  | deleteContext =>
    by_cases h0 : s.vgl_initialized = 0
    · exact ⟨b, by simp [h0, hr, emitted]⟩
    · refine ⟨false, ?_⟩
      cases b <;> simp [h0, hr, emitted, sceneTrack]
  | createContext req hints =>
    refine ⟨b, hr, ?_⟩
    simp only [emitted]
    by_cases ha : acceptable req = true <;> by_cases h0 : s.vgl_initialized = 0 <;>
      by_cases hv : hints.use_vram = true <;> simp [ha, h0, hv, sceneTrack]
  | unloadLibrary =>
    refine ⟨b, hr, ?_⟩
    simp only [emitted]
    split_ifs <;> simp [sceneTrack]
  | setSwapInterval n =>
    refine ⟨b, hr, ?_⟩
    simp only [emitted]
    split_ifs <;> simp [sceneTrack]
  | loadLibrary => exact ⟨b, hr, by simp [emitted]⟩
  | getProcAddress proc => exact ⟨b, hr, by simp [emitted, sceneTrack]⟩
  | getSwapInterval => exact ⟨b, hr, by simp [emitted]⟩
  | defaultProfileConfig => exact ⟨b, hr, by simp [emitted]⟩

theorem sceneLedger_run (ops : List Op) :
    ∀ (s : World) (b : Bool), SceneLedger s b → ∃ b', SceneLedger (run s ops) b' := by
  induction ops with
  | nil => intro s b h; exact ⟨b, h⟩
  | cons op ops ih =>
    intro s b h
    obtain ⟨b1, h1⟩ := sceneLedger_step s op b h
    rw [run_cons]
    exact ih (step s op) b1 h1

/-- C19: after any sequence of operations from a fresh process, the begin-scene and
end-scene calls in the trace of native calls strictly alternate, starting with a
begin-scene, and `vgl_rendering` is set exactly when the last of these calls is a
begin-scene (so it is clear when there is none). As the sequence is arbitrary, this holds
after every operation of it. -/
theorem C19_scene_calls_alternate (cfg : GLConfig) (swapinterval : Int)
    (window : SDL_Window) (ops : List Op) :
    alternatesFrom true (sceneCalls (run (World.fresh cfg swapinterval window) ops).calls)
        = true ∧
      ((run (World.fresh cfg swapinterval window) ops).vgl_rendering ≠ 0 ↔
        (sceneCalls (run (World.fresh cfg swapinterval window) ops).calls).getLast? =
          some vglStartRendering) := by
  obtain ⟨b, hr, hs⟩ := sceneLedger_run ops (World.fresh cfg swapinterval window) false
    ⟨rfl, rfl⟩
  obtain ⟨h1, h2⟩ := sceneTrack_foldl_spec _ false b hs
  refine ⟨h1, ?_⟩
  rw [hr]
  simp only [Bool.false_eq_true, if_false] at h2
  cases hl : (sceneCalls (run (World.fresh cfg swapinterval window) ops).calls).getLast? with
  | none =>
    rw [hl] at h2
    cases b <;> simp_all
  | some c =>
    rw [hl] at h2
    cases b <;> simp_all

/-- C19 on a sequence that unloads the library with a scene open and creates a context
again: the scene calls are begin, end, begin, end, begin from `MakeCurrent` and end, begin
from `SwapWindow`, and `vgl_rendering` is set at the end. -/
theorem C19_witness_reload :
    sceneCalls (run fresh0 [Op.createContext cfg20 noHints, Op.makeCurrent,
        Op.unloadLibrary, Op.createContext cfg20 noHints, Op.swapWindow]).calls =
      [vglStartRendering, vglStopRendering, vglStartRendering, vglStopRendering,
        vglStartRendering, vglStopRendering, vglStartRendering] ∧
    alternatesFrom true (sceneCalls (run fresh0 [Op.createContext cfg20 noHints,
        Op.makeCurrent, Op.unloadLibrary, Op.createContext cfg20 noHints,
        Op.swapWindow]).calls) = true ∧
    (run fresh0 [Op.createContext cfg20 noHints, Op.makeCurrent,
        Op.unloadLibrary, Op.createContext cfg20 noHints, Op.swapWindow]).vgl_rendering ≠ 0 :=
  have h := C19_scene_calls_alternate cfg20 0 win0 [Op.createContext cfg20 noHints,
    Op.makeCurrent, Op.unloadLibrary, Op.createContext cfg20 noHints, Op.swapWindow]
  ⟨by decide, h.1, h.2.mpr (by decide)⟩

/-! ## C20 -/

/-- C20: a `VITA_VGL_CreateContext` that returns `NULL` leaves the state exactly as it
was but for the error message: no native call is issued, and `gl_config`, the window,
`vgl_initialized`, `vgl_rendering` (and the swap interval) are unchanged. -/
theorem C20_failing_createContext_atomic (hints : Hints) (s : World)
    (hfail : (VITA_VGL_CreateContext hints s).1 = SDL_GLContext.NULL) :
    (VITA_VGL_CreateContext hints s).2 = { s with error := some "unsupported GL version" } ∧
      (VITA_VGL_CreateContext hints s).2.calls = s.calls ∧
      (VITA_VGL_CreateContext hints s).2.gl_config = s.gl_config ∧
      (VITA_VGL_CreateContext hints s).2.window = s.window ∧
      (VITA_VGL_CreateContext hints s).2.vgl_initialized = s.vgl_initialized ∧
      (VITA_VGL_CreateContext hints s).2.vgl_rendering = s.vgl_rendering ∧
      (VITA_VGL_CreateContext hints s).2.swapinterval = s.swapinterval := by
  have hg : dbl_2_05 < gl_ver s.gl_config ∨
      s.gl_config.profile_mask = SDL_GL_CONTEXT_PROFILE_ES := by
    by_contra hg
    have hd := (createContext_dummy_iff hints s).mpr hg
    rw [hd] at hfail
    exact SDL_GLContext.noConfusion hfail
  rw [createContext_refused hints s hg]
  exact ⟨rfl, rfl, rfl, rfl, rfl, rfl, rfl⟩

/-- C20 on a refused ES request made while a context exists and a scene is open. -/
theorem C20_witness_es_request :
    (VITA_VGL_CreateContext noHints
        (request { cfg20 with profile_mask := SDL_GL_CONTEXT_PROFILE_ES }
          (run fresh0 [Op.createContext cfg20 noHints, Op.makeCurrent]))).1 =
        SDL_GLContext.NULL ∧
      (VITA_VGL_CreateContext noHints
        (request { cfg20 with profile_mask := SDL_GL_CONTEXT_PROFILE_ES }
          (run fresh0 [Op.createContext cfg20 noHints, Op.makeCurrent]))).2.calls =
        (run fresh0 [Op.createContext cfg20 noHints, Op.makeCurrent]).calls ∧
      (VITA_VGL_CreateContext noHints
        (request { cfg20 with profile_mask := SDL_GL_CONTEXT_PROFILE_ES }
          (run fresh0 [Op.createContext cfg20 noHints, Op.makeCurrent]))).2.vgl_rendering = 1 :=
  have h := C20_failing_createContext_atomic noHints
    (request { cfg20 with profile_mask := SDL_GL_CONTEXT_PROFILE_ES }
      (run fresh0 [Op.createContext cfg20 noHints, Op.makeCurrent])) (by decide)
  ⟨by decide, h.2.1, h.2.2.2.2.2.1.trans (by decide)⟩

end VitaGL
